import Mathlib

/-!
Shallow embedding of the Smart City Planner core (src/src/engine/CityModel.js)
and the parts of its helper modules that the CityModel depends on.

The embedding follows the JavaScript source line by line:
pure functions become Lean functions, in-place mutation becomes explicit
state passing on a `CityModel` structure, JavaScript numbers used as exact
integers become `Int`/`Nat`, and the real-valued statistic formulas are
modelled over `Rat` (JavaScript float64 arithmetic is modelled by exact
rational arithmetic; `Math.round` is floor(x + 1/2), which matches the
JavaScript semantics on all inputs arising here).

The repository's `src/utils/constants.js` and `src/utils/helpers.js` are not
part of the source snapshot; the definitions taken from them are marked
`Modelled from the spec:` in their doc comments and follow the spec text.
-/

set_option maxRecDepth 4000

/-- Zone type identifiers.  These seven keys are exactly the keys of the
`distribution` object initialised in the CityModel constructor
(CityModel.js lines 47-55). -/
inductive ZoneType where
  | empty
  | residential
  | commercial
  | industrial
  | green
  | transit
  | road
deriving DecidableEq, Repr

/-- Per-type coefficients of the Zone Catalog (population and energy are the
two coefficients read by `calculateStats`). -/
structure ZoneInfo where
  population : Int
  energy : Int
deriving DecidableEq, Repr

/-- Modelled from the spec: the Zone Catalog `ZONE_TYPES` lives in
`src/utils/constants.js`, which is absent from the source snapshot.  Per the
spec (section 6) the catalog maps each zone type to non-negative
`population` and `energy` coefficients and includes at least `empty` and
`road` with population and energy 0.  The exact coefficients of the other
types are not recorded anywhere in the snapshot; representative non-negative
values are used (no claim below depends on their exact magnitude). -/
def ZONE_TYPES : ZoneType → ZoneInfo
  | .empty => ⟨0, 0⟩
  | .residential => ⟨100, 50⟩
  | .commercial => ⟨20, 80⟩
  | .industrial => ⟨5, 120⟩
  | .green => ⟨0, 0⟩
  | .transit => ⟨0, 30⟩
  | .road => ⟨0, 0⟩

/-- Lookup `ZONE_TYPES[type]` for a caller-supplied string: the truthiness
test `!ZONE_TYPES[type]` in `setZone` succeeds exactly for the seven catalog
keys. -/
def parseZoneType : String → Option ZoneType
  | "empty" => some .empty
  | "residential" => some .residential
  | "commercial" => some .commercial
  | "industrial" => some .industrial
  | "green" => some .green
  | "transit" => some .transit
  | "road" => some .road
  | _ => none

/-- String key of a zone type (the form stored in the grid cells of the
JavaScript object). -/
def zoneKey : ZoneType → String
  | .empty => "empty"
  | .residential => "residential"
  | .commercial => "commercial"
  | .industrial => "industrial"
  | .green => "green"
  | .transit => "transit"
  | .road => "road"

/-- One grid cell: `{ type, id }` (CityModel.js lines 28-31).  Unique ids
produced by `generateId()` are modelled as naturals drawn from a counter. -/
structure Zone where
  type : ZoneType
  id : Nat
deriving DecidableEq, Repr

/-- Zone distribution object (CityModel.js lines 47-55): one signed integer
count per zone type.  Counts are modelled as `Int` because the source
decrements with `--`, which could in principle go below zero. -/
structure Distribution where
  empty : Int
  residential : Int
  commercial : Int
  industrial : Int
  green : Int
  transit : Int
  road : Int
deriving DecidableEq, Repr

/-- Read the count of one zone type. -/
def Distribution.get (d : Distribution) : ZoneType → Int
  | .empty => d.empty
  | .residential => d.residential
  | .commercial => d.commercial
  | .industrial => d.industrial
  | .green => d.green
  | .transit => d.transit
  | .road => d.road

/-- Write the count of one zone type. -/
def Distribution.set (d : Distribution) : ZoneType → Int → Distribution
  | .empty, v => { d with empty := v }
  | .residential, v => { d with residential := v }
  | .commercial, v => { d with commercial := v }
  | .industrial, v => { d with industrial := v }
  | .green, v => { d with green := v }
  | .transit, v => { d with transit := v }
  | .road, v => { d with road := v }

/-- List of all seven zone types, in the insertion order of the
`distribution` object. -/
def allZoneTypes : List ZoneType :=
  [.empty, .residential, .commercial, .industrial, .green, .transit, .road]

/-- Sum of all counts of a distribution. -/
def Distribution.total (d : Distribution) : Int :=
  d.empty + d.residential + d.commercial + d.industrial + d.green +
    d.transit + d.road

/-- City statistics record (CityModel.js lines 34-44). -/
structure Stats where
  population : Int
  energyConsumption : Int
  carbonFootprint : Int
  greenCoverage : Int
  transitScore : Int
  walkability : Int
  airQuality : Int
  energyEfficiency : Int
  sustainabilityScore : Int
deriving DecidableEq, Repr

/-- JavaScript `Math.round`: floor(x + 1/2) for every real input. -/
def jround (q : Rat) : Int := Int.floor (q + 1 / 2)

/-- The clamp `Math.min(100, Math.max(0, z))` applied to the bounded
indicators. -/
def clamp100 (z : Int) : Int := min 100 (max 0 z)

/-- Modelled from the spec: `calculateSustainabilityScore` lives in
`src/utils/helpers.js`, which is absent from the source snapshot.  The spec
(sections 4.2 and 9) constrains it only to be a pure function of the
distribution bounded to `[0, 100]` and leaves the weighting unconstrained;
the raw weighting is therefore modelled as a fixed pure function and the
bound as an explicit clamp. -/
def sustainabilityRaw (_d : Distribution) : Int := 50

/-- Modelled from the spec: the externally scored sustainability composite,
a pure function of the distribution bounded to `[0, 100]`. -/
def calculateSustainabilityScore (d : Distribution) : Int :=
  clamp100 (sustainabilityRaw d)

/-- The statistics computation of `calculateStats` (CityModel.js lines
134-192) as a pure function of the grid size and the distribution.  In the
source the method mutates `this.stats` field by field; all reads of
`this.stats` inside the method (`greenBonus`, `renewableBonus`,
`greenAirBonus`) refer to the `greenCoverage` value assigned earlier in the
same call, which the let-chain below reproduces. -/
def calculateStats (gridSize : Nat) (d : Distribution) : Stats :=
  let totalCells : Int := (gridSize : Int) * (gridSize : Int)
  let builtCells : Int := totalCells - d.empty
  let population : Int :=
    (allZoneTypes.map (fun t => (ZONE_TYPES t).population * d.get t)).sum
  let energyConsumption : Int :=
    (allZoneTypes.map (fun t => (ZONE_TYPES t).energy * d.get t)).sum
  let greenCoverage : Int :=
    if 0 < builtCells then jround ((d.green : Rat) / (builtCells : Rat) * 100)
    else 0
  let transitRatio : Rat :=
    if 0 < builtCells then (d.transit : Rat) / (builtCells : Rat) else 0
  let residentialRatio : Rat :=
    if 0 < builtCells then (d.residential : Rat) / (builtCells : Rat) else 0
  let transitScore : Int :=
    clamp100 (jround (50 + transitRatio * 200 - residentialRatio * 30))
  let greenBonus : Rat := (greenCoverage : Rat) * (1 / 2)
  let transitBonus : Rat := transitRatio * 50
  let industrialPenalty : Rat :=
    if 0 < builtCells then (d.industrial : Rat) / (builtCells : Rat) * 30
    else 0
  let walkability : Int :=
    clamp100 (jround (50 + greenBonus + transitBonus - industrialPenalty))
  let greenAirBonus : Rat := (greenCoverage : Rat) * (4 / 5)
  let industrialAirPenalty : Rat :=
    if 0 < builtCells then (d.industrial : Rat) / (builtCells : Rat) * 50
    else 0
  let transitAirBonus : Rat := transitRatio * 20
  let airQuality : Int :=
    clamp100 (jround (60 + greenAirBonus + transitAirBonus - industrialAirPenalty))
  let renewableBonus : Rat := (greenCoverage : Rat) * (3 / 10)
  let industrialEnergyPenalty : Rat :=
    if 0 < builtCells then (d.industrial : Rat) / (builtCells : Rat) * 20
    else 0
  let energyEfficiency : Int :=
    clamp100 (jround (60 + renewableBonus - industrialEnergyPenalty))
  let netCarbon : Int :=
    d.industrial * 10 + d.commercial * 5 - d.green * 8 - d.transit * 4
  let maxCarbon : Int := builtCells * 5
  let carbonFootprint : Int :=
    if 0 < maxCarbon then jround ((netCarbon : Rat) / (maxCarbon : Rat) * 100)
    else 0
  { population := population
    energyConsumption := energyConsumption
    carbonFootprint := carbonFootprint
    greenCoverage := greenCoverage
    transitScore := transitScore
    walkability := walkability
    airQuality := airQuality
    energyEfficiency := energyEfficiency
    sustainabilityScore := calculateSustainabilityScore d }

/-- A grid: a square ordered matrix of Zone, row-major (`grid[y][x]`). -/
abbrev GridT := List (List Zone)

/-- Modelled from the spec: `create2DArray` lives in `src/utils/helpers.js`,
which is absent from the source snapshot.  Per the spec (section 3) the grid
is a square ordered matrix of fresh empty zones; `generateId()` produces a
distinct identity per cell, modelled by numbering cells row-major starting
from a counter value. -/
def freshGrid (g : Nat) (startId : Nat) : GridT :=
  (List.range g).map (fun y =>
    (List.range g).map (fun x => ⟨ZoneType.empty, startId + y * g + x⟩))

/-- One history snapshot `{grid, distribution, stats}` (CityModel.js lines
343-347).  `deepClone` / object spread produce copies; in the value
semantics of the embedding a copy is the value itself. -/
structure Snapshot where
  grid : GridT
  distribution : Distribution
  stats : Stats
deriving DecidableEq, Repr

/-- The CityModel aggregate (CityModel.js lines 8-68).  `roads` and
`transitLines` are initialised empty and never touched by any modelled
operation, so they are omitted.  `nextId` is the `generateId()` counter. -/
structure CityModel where
  id : Nat
  name : String
  size : String
  gridSize : Nat
  targetPopulation : Nat
  grid : GridT
  stats : Stats
  distribution : Distribution
  history : List Snapshot
  historyIndex : Int
  nextId : Nat
deriving DecidableEq, Repr

/-- The literal statistics record assigned in the constructor (CityModel.js
lines 34-44). -/
def initialStats : Stats :=
  { population := 0
    energyConsumption := 0
    carbonFootprint := 0
    greenCoverage := 0
    transitScore := 50
    walkability := 50
    airQuality := 70
    energyEfficiency := 60
    sustainabilityScore := 50 }

/-- The literal distribution assigned in the constructor (CityModel.js lines
47-55) and in `clear` (lines 322-330). -/
def emptyDistribution (g : Nat) : Distribution :=
  { empty := (g : Int) * (g : Int)
    residential := 0
    commercial := 0
    industrial := 0
    green := 0
    transit := 0
    road := 0 }

/-- The snapshot of the current state pushed by `saveState`. -/
def CityModel.snap (c : CityModel) : Snapshot :=
  ⟨c.grid, c.distribution, c.stats⟩

/-- History push of `saveState` (CityModel.js lines 338-356): truncate the
future, push a copy of the current state, advance the cursor, and evict the
oldest snapshot once the length exceeds 50. -/
def CityModel.saveState (c : CityModel) : CityModel :=
  let h1 := c.history.take (c.historyIndex + 1).toNat
  let h2 := h1 ++ [c.snap]
  let i2 : Int := (h2.length : Int) - 1
  if 50 < h2.length then
    { c with history := h2.tail, historyIndex := i2 - 1 }
  else
    { c with history := h2, historyIndex := i2 }

/-- Modelled from the spec: `CITY_SIZES` lives in `src/utils/constants.js`,
absent from the snapshot.  The spec (section 6) maps each named size class
to a fixed gridSize and target population; the populations appear in the
numeric constructor branch of the source, and grid sizes consistent with the
source's bucketing thresholds (small up to 60, medium up to 100, spec cap
160) are used.  No claim depends on the exact grid values. -/
def CITY_SIZES : String → Option (Nat × Nat)
  | "small" => some (60, 100000)
  | "medium" => some (100, 500000)
  | "large" => some (160, 2000000)
  | _ => none

/-- The CityModel constructor (CityModel.js lines 9-68).  The argument is
either a numeric grid size or a string size key, mirroring the `typeof`
branch.  `generateId()` for `this.id` and the grid cells is modelled by the
counter starting at 0. -/
def CityModel.create (size : Nat ⊕ String) : CityModel :=
  let cfg : String × Nat × Nat :=
    match size with
    | .inl n =>
        (if n ≤ 60 then "small" else if n ≤ 100 then "medium" else "large",
         n,
         if n ≤ 60 then 100000 else if n ≤ 100 then 500000 else 2000000)
    | .inr s =>
        let sc := (CITY_SIZES s).getD ((CITY_SIZES "medium").getD (100, 500000))
        (s, sc.1, sc.2)
  let g := cfg.2.1
  let base : CityModel :=
    { id := 0
      name := "New City"
      size := cfg.1
      gridSize := g
      targetPopulation := cfg.2.2
      grid := freshGrid g 1
      stats := initialStats
      distribution := emptyDistribution g
      history := []
      historyIndex := -1
      nextId := 1 + g * g }
  base.saveState

/-- Cell read `this.grid[y][x]` (in-bounds callers only; out-of-range reads
default to a dummy cell, which no modelled operation reaches when the grid
has its declared dimensions). -/
def cellAt (grid : GridT) (x y : Nat) : Zone :=
  ((grid.getD y []).getD x ⟨ZoneType.empty, 0⟩)

/-- Cell write `this.grid[y][x] = z`. -/
def setCell (grid : GridT) (x y : Nat) (z : Zone) : GridT :=
  grid.set y ((grid.getD y []).set x z)

/-- `setZone(x, y, type)` (CityModel.js lines 76-95): bounds check, catalog
check, no-op on identical type; otherwise update distribution, replace the
cell with a fresh Zone, and recompute statistics.  Does not push a history
snapshot. -/
def CityModel.setZone (x y : Int) (t : String) (c : CityModel) : CityModel :=
  if x < 0 ∨ (c.gridSize : Int) ≤ x ∨ y < 0 ∨ (c.gridSize : Int) ≤ y then c
  else
    match parseZoneType t with
    | none => c
    | some zt =>
      let oldType := (cellAt c.grid x.toNat y.toNat).type
      if oldType = zt then c
      else
        let d1 := (c.distribution.set oldType (c.distribution.get oldType - 1)).set zt
          (((c.distribution.set oldType (c.distribution.get oldType - 1)).get zt) + 1)
        let g1 := setCell c.grid x.toNat y.toNat ⟨zt, c.nextId⟩
        { c with distribution := d1
                 grid := g1
                 nextId := c.nextId + 1
                 stats := calculateStats c.gridSize d1 }

/-- `getZone(x, y)` (CityModel.js lines 126-129). -/
def CityModel.getZone (x y : Int) (c : CityModel) : Option Zone :=
  if x < 0 ∨ (c.gridSize : Int) ≤ x ∨ y < 0 ∨ (c.gridSize : Int) ≤ y then none
  else some (cellAt c.grid x.toNat y.toNat)

/-- `fillArea(x1, y1, x2, y2, type)` (CityModel.js lines 105-118): apply
`setZone` over the inclusive min/max rectangle, then push one snapshot. -/
def CityModel.fillArea (x1 y1 x2 y2 : Int) (t : String) (c : CityModel) : CityModel :=
  let minX := min x1 x2
  let maxX := max x1 x2
  let minY := min y1 y2
  let maxY := max y1 y2
  let ys := (List.range (maxY - minY + 1).toNat).map (fun k => minY + k)
  let xs := (List.range (maxX - minX + 1).toNat).map (fun k => minX + k)
  let c1 := ys.foldl (fun acc y => xs.foldl (fun acc2 x => acc2.setZone x y t) acc) c
  c1.saveState

/-- `clear()` (CityModel.js lines 316-333): fresh empty grid, reset
distribution, recompute statistics; no snapshot pushed. -/
def CityModel.clear (c : CityModel) : CityModel :=
  let d := emptyDistribution c.gridSize
  { c with grid := freshGrid c.gridSize c.nextId
           nextId := c.nextId + c.gridSize * c.gridSize
           distribution := d
           stats := calculateStats c.gridSize d }

/-- `undo()` (CityModel.js lines 361-372): move the cursor back one step and
restore grid, distribution and stats from the snapshot there; returns false
at the boundary.  Under the history invariant the cursor is in range; an
out-of-range read falls back to the current state (the source would throw
there, which is unreachable). -/
def CityModel.undo (c : CityModel) : Bool × CityModel :=
  if c.historyIndex ≤ 0 then (false, c)
  else
    let i := c.historyIndex - 1
    let s := c.history.getD i.toNat c.snap
    (true, { c with historyIndex := i
                    grid := s.grid
                    distribution := s.distribution
                    stats := s.stats })

/-- `redo()` (CityModel.js lines 377-388). -/
def CityModel.redo (c : CityModel) : Bool × CityModel :=
  if (c.history.length : Int) - 1 ≤ c.historyIndex then (false, c)
  else
    let i := c.historyIndex + 1
    let s := c.history.getD i.toNat c.snap
    (true, { c with historyIndex := i
                    grid := s.grid
                    distribution := s.distribution
                    stats := s.stats })

/-- The plain object returned by `exportData()` (CityModel.js lines
394-405).  `exportedAt` carries the caller-visible timestamp. -/
structure ExportShape where
  id : Nat
  name : String
  size : String
  gridSize : Nat
  grid : GridT
  stats : Stats
  distribution : Distribution
  exportedAt : String
deriving DecidableEq, Repr

/-- `exportData()` (CityModel.js lines 394-405) as a value-level snapshot;
the aliasing behaviour of the returned references is modelled separately by
the heap embedding below. -/
def CityModel.exportData (now : String) (c : CityModel) : ExportShape :=
  { id := c.id
    name := c.name
    size := c.size
    gridSize := c.gridSize
    grid := c.grid
    stats := c.stats
    distribution := c.distribution
    exportedAt := now }

/-- Snapshot shape used while a City may hold an absent (`undefined`) grid
or distribution, as can happen during `importData`. -/
structure DynSnapshot where
  grid : Option GridT
  distribution : Option Distribution
  stats : Stats
deriving DecidableEq, Repr

/-- City shape used for the `importData` analysis: identical to `CityModel`
except that `grid` and `distribution` may be absent, because
`this.grid = data.grid` copies whatever the payload holds, including
`undefined`. -/
structure DynCity where
  id : Nat
  name : String
  size : String
  gridSize : Nat
  targetPopulation : Nat
  grid : Option GridT
  stats : Stats
  distribution : Option Distribution
  history : List DynSnapshot
  historyIndex : Int
  nextId : Nat
deriving DecidableEq, Repr

/-- View of a well-formed City as a DynCity. -/
def CityModel.toDyn (c : CityModel) : DynCity :=
  { id := c.id
    name := c.name
    size := c.size
    gridSize := c.gridSize
    targetPopulation := c.targetPopulation
    grid := some c.grid
    stats := c.stats
    distribution := some c.distribution
    history := c.history.map (fun s => ⟨some s.grid, some s.distribution, s.stats⟩)
    historyIndex := c.historyIndex
    nextId := c.nextId }

/-- `saveState` on the dynamic city shape (same code path; `deepClone` of an
absent grid is modelled as the absent value). -/
def DynCity.saveState (c : DynCity) : DynCity :=
  let h1 := c.history.take (c.historyIndex + 1).toNat
  let h2 := h1 ++ [(⟨c.grid, c.distribution, c.stats⟩ : DynSnapshot)]
  let i2 : Int := (h2.length : Int) - 1
  if 50 < h2.length then
    { c with history := h2.tail, historyIndex := i2 - 1 }
  else
    { c with history := h2, historyIndex := i2 }

/-- A payload for `importData(data)`: every field the method reads, each
possibly absent.  A JavaScript falsy field (absent, `undefined`, `null`,
`''`, `0`) selects the `||` fallback; absence models all falsy cases, and
the string fields additionally treat `""` as falsy below. -/
structure ImportPayload where
  id : Option Nat
  name : Option String
  size : Option String
  gridSize : Option Nat
  grid : Option GridT
  distribution : Option Distribution
deriving DecidableEq, Repr

/-- JavaScript `x || y` for an optional string field. -/
def strOr (v : Option String) (dflt : String) : String :=
  match v with
  | some s => if s = "" then dflt else s
  | none => dflt

/-- First slice of `importData(data)`: the assignments `this.id = ...`,
`this.name = ...`, `this.size = ...` (CityModel.js lines 421-423), which
always succeed.  A missing id consumes one `generateId()`. -/
def importStage1 (d : ImportPayload) (c : DynCity) : DynCity :=
  { c with
      id := match d.id with | some i => i | none => c.nextId
      nextId := match d.id with | some _ => c.nextId | none => c.nextId + 1
      name := strOr d.name "Imported City"
      size := strOr d.size "medium" }

/-- The value of `data.gridSize || CITY_SIZES[this.size].grid`
(CityModel.js line 424) after the size assignment: `none` models the
TypeError thrown when `data.gridSize` is falsy and the just-assigned size
key is unknown to `CITY_SIZES`. -/
def importGridSize (d : ImportPayload) (c1 : DynCity) : Option Nat :=
  match d.gridSize with
  | some g => if g = 0 then (CITY_SIZES c1.size).map (·.1) else some g
  | none => (CITY_SIZES c1.size).map (·.1)

/-- Second slice of `importData(data)`: the assignments `this.gridSize`,
`this.grid`, `this.distribution` (CityModel.js lines 424-426), copying the
payload values as-is, including absent ones. -/
def importStage2 (d : ImportPayload) (gs : Nat) (c1 : DynCity) : DynCity :=
  { c1 with gridSize := gs, grid := d.grid, distribution := d.distribution }

/-- `importData(data)` (CityModel.js lines 419-434), field assignment by
field assignment.  The method runs inside `try`: a step that throws makes
the call return `false`, keeping every assignment already made.  The two
reachable throw points are (1) `CITY_SIZES[this.size].grid` when
`data.gridSize` is falsy and the just-assigned size key is not in
`CITY_SIZES`, and (2) `calculateStats`, whose very first read
`this.distribution.empty` throws when the payload carried no distribution.
A caller passing a non-object payload throws at the first property read,
before any assignment. -/
def CityModel.importData (data : Option ImportPayload) (c : DynCity) :
    Bool × DynCity :=
  match data with
  | none => (false, c)
  | some d =>
    match importGridSize d (importStage1 d c) with
    | none => (false, importStage1 d c)
    | some gs =>
      match d.distribution with
      | none => (false, importStage2 d gs (importStage1 d c))
      | some dist =>
        (true,
          ({ importStage2 d gs (importStage1 d c) with
              stats := calculateStats gs dist }).saveState)

/-- Layout parameters of `generateLayout(params)` (CityModel.js lines
199-206), with the destructuring defaults of the source. -/
structure LayoutParams where
  residentialRatio : Rat := 35 / 100
  commercialRatio : Rat := 15 / 100
  industrialRatio : Rat := 1 / 10
  greenRatio : Rat := 25 / 100
  transitRatio : Rat := 8 / 100
  roadRatio : Rat := 7 / 100
deriving DecidableEq, Repr

/-- Iteration set of `for (v = spacing; v < g; v += spacing)` for a positive
spacing: the positive multiples of the spacing below `g`, in ascending
order. -/
def spacedPositions (g s : Nat) : List Nat :=
  (List.range g).filter (fun v => 0 < v ∧ v % s = 0)

/-- `generateRoadNetwork()` (CityModel.js lines 267-294): horizontal and
vertical road lines at spacing `floor(gridSize/8)` plus a five-cell-wide
diagonal boulevard.  `Math.round(j - center)` on integers is `j - center`
itself (the `offset` local of the source is inlined).  Callers guarantee a positive spacing; with spacing 0 the source
loops forever (handled at the `generateLayout` entry). -/
def CityModel.generateRoadNetwork (c : CityModel) : CityModel :=
  let g := c.gridSize
  let spacing := g / 8
  let c1 := (spacedPositions g spacing).foldl
    (fun acc (y : Nat) => (List.range g).foldl
      (fun acc2 (x : Nat) => acc2.setZone (x : Int) (y : Int) "road") acc) c
  let c2 := (spacedPositions g spacing).foldl
    (fun acc (x : Nat) => (List.range g).foldl
      (fun acc2 (y : Nat) => acc2.setZone (x : Int) (y : Int) "road") acc) c1
  let center : Int := (g / 2 : Nat)
  ([-2, -1, 0, 1, 2] : List Int).foldl
    (fun acc (i : Int) => (List.range g).foldl
      (fun acc2 (j : Nat) =>
        if 0 ≤ center + ((j : Int) - center) + i ∧
            center + ((j : Int) - center) + i < (g : Int) then
          acc2.setZone (j : Int) (center + ((j : Int) - center) + i) "road"
        else acc2) acc) c2

/-- The ring comparison `normalizedDist > theta` of the layout generator,
where `normalizedDist = sqrt(dsq) / (center * 1.4)`.  Squaring both sides
(all quantities non-negative) turns it into the exact rational comparison
`dsq > theta^2 * (1.4 * center)^2`, which models the real-valued semantics
of the source expression. -/
def distAbove (dsq : Int) (center : Nat) (theta : Rat) : Bool :=
  theta ^ 2 * ((7 / 5 : Rat) * (center : Rat)) ^ 2 < (dsq : Rat)

/-- The zone type chosen for one still-empty cell of the ring loop
(CityModel.js lines 222-248); `none` models keeping `'empty'`. -/
def ringChoice (p : LayoutParams) (center : Nat) (dsq : Int) (rand : Rat) :
    Option ZoneType :=
  if distAbove dsq center (9 / 10) then
    if rand < 2 / 5 then some .green
    else if rand < 3 / 5 then some .industrial
    else none
  else if distAbove dsq center (3 / 5) then
    if rand < p.residentialRatio * (3 / 2) then some .residential
    else if rand < p.residentialRatio * (3 / 2) + p.greenRatio then some .green
    else none
  else if distAbove dsq center (3 / 10) then
    if rand < p.residentialRatio then some .residential
    else if rand < p.residentialRatio + p.commercialRatio then some .commercial
    else if rand < p.residentialRatio + p.commercialRatio + p.greenRatio * (1 / 2) then
      some .green
    else none
  else
    if rand < p.commercialRatio * 2 then some .commercial
    else if rand < p.commercialRatio * 2 + p.transitRatio * 2 then some .transit
    else if rand < p.commercialRatio * 2 + p.transitRatio * 2 + p.greenRatio * (3 / 10) then
      some .green
    else none

/-- One iteration of the ring loop of `generateLayout` (CityModel.js lines
218-254): skip non-empty cells without consuming a random draw, otherwise
consume the next draw and possibly set the chosen zone. -/
def ringStep (p : LayoutParams) (rnd : Nat → Rat) (center : Nat)
    (st : CityModel × Nat) (x y : Nat) : CityModel × Nat :=
  if (cellAt st.1.grid x y).type ≠ ZoneType.empty then st
  else
    match ringChoice p center
        (((x : Int) - (center : Int)) ^ 2 + ((y : Int) - (center : Int)) ^ 2)
        (rnd st.2) with
    | none => (st.1, st.2 + 1)
    | some zt => (st.1.setZone (x : Int) (y : Int) (zoneKey zt), st.2 + 1)

/-- The full ring loop, row-major (`y` outer, `x` inner). -/
def ringPhase (p : LayoutParams) (rnd : Nat → Rat) (c : CityModel) :
    CityModel × Nat :=
  let g := c.gridSize
  let center := g / 2
  (List.range g).foldl
    (fun st y => (List.range g).foldl
      (fun st2 x => ringStep p rnd center st2 x y) st) (c, 0)

/-- `addTransitHubs()` (CityModel.js lines 299-311): a 2x2 transit cluster
at every intersection of positive multiples of `floor(gridSize/4)`. -/
def CityModel.addTransitHubs (c : CityModel) : CityModel :=
  let g := c.gridSize
  let spacing := g / 4
  (spacedPositions g spacing).foldl
    (fun acc (y : Nat) => (spacedPositions g spacing).foldl
      (fun acc2 (x : Nat) =>
        ((((acc2.setZone (x : Int) (y : Int) "transit").setZone
            ((x + 1 : Nat) : Int) (y : Int) "transit").setZone
            (x : Int) ((y + 1 : Nat) : Int) "transit").setZone
            ((x + 1 : Nat) : Int) ((y + 1 : Nat) : Int) "transit")) acc) c

/-- Recompute `this.stats` from the current distribution (the method call
`this.calculateStats()`). -/
def CityModel.recalcStats (c : CityModel) : CityModel :=
  { c with stats := calculateStats c.gridSize c.distribution }

/-- `generateLayout(params)` (CityModel.js lines 198-262): clear, road
skeleton, ring-based random zoning, transit hubs, statistics, snapshot.
When `floor(gridSize/8) = 0` (gridSize below 8) the road loops of the
source increment by 0 and never terminate; that divergence is modelled as
`none`. -/
def CityModel.generateLayout (p : LayoutParams) (rnd : Nat → Rat)
    (c : CityModel) : Option CityModel :=
  if c.gridSize / 8 = 0 then none
  else
    let c1 := c.clear.generateRoadNetwork
    let c2 := (ringPhase p rnd c1).1
    some c2.addTransitHubs.recalcStats.saveState

/-- Reference-level model of the JavaScript object graph, used to settle the
aliasing behaviour of `exportData`.  The heap holds the mutable `grid`,
`distribution` and `stats` objects in three arenas addressed by indices;
`this.grid[y][x] = ...`, `this.distribution[t]--` and the `this.stats.f = ...`
assignments of the source mutate those objects in place (the fields of
`this` are never reassigned by `setZone`), which the model renders as
writing the arena slot named by an unchanged reference. -/
structure Heap where
  grids : List GridT
  dists : List Distribution
  statsArr : List Stats
deriving DecidableEq, Repr

/-- The City as a record of scalar fields plus references into the heap. -/
structure HeapCity where
  id : Nat
  name : String
  size : String
  gridSize : Nat
  gridRef : Nat
  distRef : Nat
  statsRef : Nat
  nextId : Nat
deriving DecidableEq, Repr

/-- Dereference the grid object. -/
def Heap.grid (h : Heap) (r : Nat) : GridT := h.grids.getD r []

/-- Dereference the distribution object. -/
def Heap.dist (h : Heap) (r : Nat) : Distribution :=
  h.dists.getD r (emptyDistribution 0)

/-- Dereference the stats object. -/
def Heap.stats (h : Heap) (r : Nat) : Stats := h.statsArr.getD r initialStats

/-- `setZone(x, y, type)` over the reference model: the same logic as
`CityModel.setZone`, with the grid, distribution and stats objects read
through and written back to the city's unchanged references. -/
def HeapCity.setZone (x y : Int) (t : String) (h : Heap) (c : HeapCity) :
    Heap × HeapCity :=
  if x < 0 ∨ (c.gridSize : Int) ≤ x ∨ y < 0 ∨ (c.gridSize : Int) ≤ y then (h, c)
  else
    match parseZoneType t with
    | none => (h, c)
    | some zt =>
      let grid := h.grid c.gridRef
      let d := h.dist c.distRef
      let oldType := (cellAt grid x.toNat y.toNat).type
      if oldType = zt then (h, c)
      else
        let d1 := (d.set oldType (d.get oldType - 1)).set zt
          (((d.set oldType (d.get oldType - 1)).get zt) + 1)
        let g1 := setCell grid x.toNat y.toNat ⟨zt, c.nextId⟩
        let h1 : Heap :=
          { grids := h.grids.set c.gridRef g1
            dists := h.dists.set c.distRef d1
            statsArr := h.statsArr.set c.statsRef (calculateStats c.gridSize d1) }
        (h1, { c with nextId := c.nextId + 1 })

/-- The object returned by `exportData()` in the reference model: its
`grid`, `stats` and `distribution` properties are the very references held
by the City, not copies (CityModel.js lines 400-402). -/
structure HeapExport where
  id : Nat
  name : String
  size : String
  gridSize : Nat
  gridRef : Nat
  statsRef : Nat
  distRef : Nat
  exportedAt : String
deriving DecidableEq, Repr

/-- `exportData()` over the reference model.  It reads the City and
allocates nothing in any arena. -/
def HeapCity.exportData (now : String) (c : HeapCity) : HeapExport :=
  { id := c.id
    name := c.name
    size := c.size
    gridSize := c.gridSize
    gridRef := c.gridRef
    statsRef := c.statsRef
    distRef := c.distRef
    exportedAt := now }

/-- Number of cells of a given type in one row. -/
def countRow (t : ZoneType) (row : List Zone) : Nat :=
  row.countP (fun z => decide (z.type = t))

/-- Number of cells of a given type in the whole grid. -/
def countGrid (t : ZoneType) (grid : GridT) : Nat :=
  (grid.map (countRow t)).sum

/-- The grid is a square matrix of the declared size. -/
def GridDims (g : Nat) (grid : GridT) : Prop :=
  grid.length = g ∧ ∀ row ∈ grid, row.length = g

/-- The distribution records exactly the per-type cell counts of the grid. -/
def DistMatches (grid : GridT) (d : Distribution) : Prop :=
  ∀ t, d.get t = (countGrid t grid : Int)

/-- All six bounded indicators lie within `[0, 100]`. -/
def StatsRange (s : Stats) : Prop :=
  0 ≤ s.greenCoverage ∧ s.greenCoverage ≤ 100 ∧
  0 ≤ s.transitScore ∧ s.transitScore ≤ 100 ∧
  0 ≤ s.walkability ∧ s.walkability ≤ 100 ∧
  0 ≤ s.airQuality ∧ s.airQuality ≤ 100 ∧
  0 ≤ s.energyEfficiency ∧ s.energyEfficiency ≤ 100 ∧
  0 ≤ s.sustainabilityScore ∧ s.sustainabilityScore ≤ 100

/-- A well-formed history snapshot. -/
def SnapOk (g : Nat) (s : Snapshot) : Prop :=
  GridDims g s.grid ∧ DistMatches s.grid s.distribution ∧ StatsRange s.stats

/-- The full consistency invariant of a City: square grid, distribution in
sync with the grid, bounded statistics, and well-formed snapshots. -/
def Good (c : CityModel) : Prop :=
  GridDims c.gridSize c.grid ∧ DistMatches c.grid c.distribution ∧
    StatsRange c.stats ∧ ∀ s ∈ c.history, SnapOk c.gridSize s

lemma countRow_cons (t : ZoneType) (z : Zone) (row : List Zone) :
    countRow t (z :: row) = (if z.type = t then 1 else 0) + countRow t row := by
  simp [countRow, List.countP_cons]
  split <;> omega

lemma sum_countRow (row : List Zone) :
    (allZoneTypes.map (fun t => countRow t row)).sum = row.length := by
  induction row with
  | nil => simp [allZoneTypes, countRow]
  | cons z r ih =>
    cases h : z.type <;>
      simp [allZoneTypes, countRow_cons, h] at ih ⊢ <;> omega

lemma sum_countGrid (grid : GridT) :
    (allZoneTypes.map (fun t => countGrid t grid)).sum =
      (grid.map List.length).sum := by
  induction grid with
  | nil => simp [allZoneTypes, countGrid]
  | cons row rest ih =>
    have h1 := sum_countRow row
    simp [allZoneTypes, countGrid] at ih h1 ⊢
    omega

lemma countRow_set (row : List Zone) (x : Nat) (z : Zone) (hx : x < row.length)
    (t : ZoneType) :
    countRow t (row.set x z) +
        (if (row.getD x ⟨ZoneType.empty, 0⟩).type = t then 1 else 0) =
      countRow t row + (if z.type = t then 1 else 0) := by
  induction row generalizing x with
  | nil => simp at hx
  | cons a r ih =>
    cases x with
    | zero => simp [countRow_cons]; omega
    | succ n =>
      have hn : n < r.length := by simpa using hx
      have := ih n hn
      simp [countRow_cons, List.set_cons_succ] at this ⊢
      omega

lemma countGrid_cons (t : ZoneType) (row : List Zone) (rest : GridT) :
    countGrid t (row :: rest) = countRow t row + countGrid t rest := by
  simp [countGrid]

lemma countGrid_setCell (grid : GridT) (x y : Nat) (z : Zone)
    (hy : y < grid.length) (hx : x < (grid.getD y []).length) (t : ZoneType) :
    countGrid t (setCell grid x y z) +
        (if (cellAt grid x y).type = t then 1 else 0) =
      countGrid t grid + (if z.type = t then 1 else 0) := by
  induction grid generalizing y with
  | nil => simp at hy
  | cons row rest ih =>
    cases y with
    | zero =>
      have := countRow_set row x z (by simpa using hx) t
      simp [setCell, cellAt, countGrid_cons] at this ⊢
      omega
    | succ n =>
      have hn : n < rest.length := by simpa using hy
      have := ih n hn (by simpa using hx)
      simp [setCell, cellAt, List.set_cons_succ, countGrid_cons] at this ⊢
      omega

lemma setCell_dims (g : Nat) (grid : GridT) (x y : Nat) (z : Zone)
    (h : GridDims g grid) : GridDims g (setCell grid x y z) := by
  obtain ⟨hlen, hrows⟩ := h
  by_cases hy : y < grid.length
  · refine ⟨by simpa [setCell] using hlen, ?_⟩
    intro row hrow
    rcases List.mem_or_eq_of_mem_set hrow with h1 | h1
    · exact hrows row h1
    · subst h1
      have hmem : grid.getD y [] ∈ grid := by
        rw [List.getD_eq_getElem _ _ hy]
        exact List.getElem_mem hy
      simpa using hrows _ hmem
  · have heq : setCell grid x y z = grid := by
      unfold setCell
      exact List.set_eq_of_length_le (Nat.le_of_not_lt hy)
    rw [heq]
    exact ⟨hlen, hrows⟩

lemma freshGrid_dims (g n : Nat) : GridDims g (freshGrid g n) := by
  constructor
  · simp [freshGrid]
  · intro row hrow
    simp [freshGrid] at hrow
    obtain ⟨y, _, rfl⟩ := hrow
    simp

lemma countRow_freshRow (t : ZoneType) (g b : Nat) :
    countRow t ((List.range g).map (fun x => (⟨ZoneType.empty, b + x⟩ : Zone)))
      = if t = ZoneType.empty then g else 0 := by
  induction g with
  | zero => simp [countRow]
  | succ m ih =>
    rw [List.range_succ]
    simp [countRow, List.countP_append] at ih ⊢
    rcases t <;> simp_all [countRow]

lemma countGrid_freshGrid (t : ZoneType) (g n : Nat) :
    countGrid t (freshGrid g n) = if t = ZoneType.empty then g * g else 0 := by
  unfold freshGrid countGrid
  rw [List.map_map]
  have hfun : (countRow t ∘ fun y =>
      (List.range g).map fun x => (⟨ZoneType.empty, n + y * g + x⟩ : Zone)) =
      fun _y => if t = ZoneType.empty then g else 0 :=
    funext fun y => countRow_freshRow t g (n + y * g)
  rw [hfun]
  rcases t <;> simp [List.map_const', List.sum_replicate, smul_eq_mul]

lemma Distribution.get_set (d : Distribution) (a b : ZoneType) (v : Int) :
    (d.set a v).get b = if a = b then v else d.get b := by
  cases a <;> cases b <;> simp [Distribution.get, Distribution.set]

lemma Distribution.total_eq_sum (d : Distribution) :
    d.total = (allZoneTypes.map (fun t => d.get t)).sum := by
  simp [Distribution.total, allZoneTypes, Distribution.get]
  ring

lemma clamp100_range (z : Int) : 0 ≤ clamp100 z ∧ clamp100 z ≤ 100 := by
  unfold clamp100
  omega

lemma jround_nonneg (q : Rat) (h : 0 ≤ q) : 0 ≤ jround q := by
  unfold jround
  have : (0 : Rat) ≤ q + 1 / 2 := by linarith
  exact_mod_cast Int.le_floor.mpr (by exact_mod_cast this)

lemma jround_le_100 (q : Rat) (h : q ≤ 100) : jround q ≤ 100 := by
  unfold jround
  have h2 : Int.floor (q + 1 / 2) < 101 := by
    rw [Int.floor_lt]
    push_cast
    linarith
  omega

lemma calculateStats_range (g : Nat) (d : Distribution)
    (h0 : 0 ≤ d.green)
    (h1 : 0 < (g : Int) * g - d.empty → d.green ≤ (g : Int) * g - d.empty) :
    StatsRange (calculateStats g d) := by
  unfold calculateStats StatsRange
  simp only
  refine ⟨?_, ?_, ?_, ?_, ?_, ?_, ?_, ?_, ?_, ?_, ?_, ?_⟩
  all_goals
    first
    | (apply (clamp100_range _).1)
    | (apply (clamp100_range _).2)
    | skip
  · split
    · next hpos =>
      apply jround_nonneg
      have hb : (0 : Rat) < ((g : Int) * g - d.empty : Int) := by exact_mod_cast hpos
      have hg : (0 : Rat) ≤ (d.green : Rat) := by exact_mod_cast h0
      positivity
    · omega
  · split
    · next hpos =>
      apply jround_le_100
      have hb : (0 : Rat) < ((g : Int) * g - d.empty : Int) := by exact_mod_cast hpos
      have hg : (d.green : Rat) ≤ ((g : Int) * g - d.empty : Int) := by
        exact_mod_cast h1 hpos
      have hdiv : (d.green : Rat) / ((g : Int) * g - d.empty : Int) ≤ 1 :=
        (div_le_one hb).mpr hg
      calc (d.green : Rat) / ((g : Int) * g - d.empty : Int) * 100
          ≤ 1 * 100 := by nlinarith
        _ = 100 := by norm_num
    · omega

lemma sum_lengths_of_dims (g : Nat) (grid : GridT) (hd : GridDims g grid) :
    (grid.map List.length).sum = g * g := by
  obtain ⟨hlen, hrows⟩ := hd
  have hmap : grid.map List.length = grid.map (fun _ => g) :=
    List.map_congr_left (fun row hrow => hrows row hrow)
  rw [hmap, List.map_const', List.sum_replicate, smul_eq_mul, hlen]

lemma dist_total_of_matches (g : Nat) (grid : GridT) (d : Distribution)
    (hd : GridDims g grid) (hm : DistMatches grid d) :
    d.total = (g : Int) * g := by
  rw [Distribution.total_eq_sum]
  have hmap : allZoneTypes.map (fun t => d.get t) =
      allZoneTypes.map (fun t => (countGrid t grid : Int)) :=
    List.map_congr_left (fun t _ => hm t)
  rw [hmap]
  have h1 : (allZoneTypes.map (fun t => (countGrid t grid : Int))).sum =
      ((allZoneTypes.map (fun t => countGrid t grid)).sum : Int) := by
    rw [Nat.cast_list_sum, List.map_map]
    rfl
  rw [h1, sum_countGrid, sum_lengths_of_dims g grid hd]
  push_cast
  ring

lemma green_bounds_of_matches (g : Nat) (grid : GridT) (d : Distribution)
    (hd : GridDims g grid) (hm : DistMatches grid d) :
    0 ≤ d.green ∧ d.green ≤ (g : Int) * g - d.empty := by
  have htot := dist_total_of_matches g grid d hd hm
  have he := hm .empty
  have hr := hm .residential
  have hc := hm .commercial
  have hi := hm .industrial
  have hg := hm .green
  have ht := hm .transit
  have hro := hm .road
  simp [Distribution.get] at he hr hc hi hg ht hro
  unfold Distribution.total at htot
  constructor
  · rw [hg]; positivity
  · have h1 : (0 : Int) ≤ countGrid ZoneType.residential grid := by positivity
    have h2 : (0 : Int) ≤ countGrid ZoneType.commercial grid := by positivity
    have h3 : (0 : Int) ≤ countGrid ZoneType.industrial grid := by positivity
    have h4 : (0 : Int) ≤ countGrid ZoneType.transit grid := by positivity
    have h5 : (0 : Int) ≤ countGrid ZoneType.road grid := by positivity
    omega

lemma stats_range_of_matches (g : Nat) (grid : GridT) (d : Distribution)
    (hd : GridDims g grid) (hm : DistMatches grid d) :
    StatsRange (calculateStats g d) := by
  obtain ⟨h0, h1⟩ := green_bounds_of_matches g grid d hd hm
  exact calculateStats_range g d h0 (fun _ => h1)

lemma row_len_of_dims (g : Nat) (grid : GridT) (hd : GridDims g grid) (y : Nat)
    (hy : y < g) : (grid.getD y []).length = g := by
  obtain ⟨hlen, hrows⟩ := hd
  have hylen : y < grid.length := by omega
  have hmem : grid.getD y [] ∈ grid := by
    rw [List.getD_eq_getElem _ _ hylen]
    exact List.getElem_mem hylen
  exact hrows _ hmem

lemma setZone_good (x y : Int) (t : String) (c : CityModel) (h : Good c) :
    Good (c.setZone x y t) := by
  obtain ⟨hd, hm, hs, hh⟩ := h
  unfold CityModel.setZone
  split
  · exact ⟨hd, hm, hs, hh⟩
  next hbnd =>
    push_neg at hbnd
    obtain ⟨hx0, hxg, hy0, hyg⟩ := hbnd
    have hxg' : x.toNat < c.gridSize := by omega
    have hyg' : y.toNat < c.gridSize := by omega
    cases hp : parseZoneType t with
    | none => exact ⟨hd, hm, hs, hh⟩
    | some zt =>
      simp only
      split
      · exact ⟨hd, hm, hs, hh⟩
      next hne =>
        have hlenc : c.grid.length = c.gridSize := hd.1
        have hylen : y.toNat < c.grid.length := by omega
        have hxlen : x.toNat < (c.grid.getD y.toNat []).length := by
          rw [row_len_of_dims c.gridSize c.grid hd y.toNat hyg']
          exact hxg'
        have hd1 : GridDims c.gridSize
            (setCell c.grid x.toNat y.toNat ⟨zt, c.nextId⟩) :=
          setCell_dims c.gridSize c.grid x.toNat y.toNat _ hd
        have hm1 : DistMatches (setCell c.grid x.toNat y.toNat ⟨zt, c.nextId⟩)
            ((c.distribution.set (cellAt c.grid x.toNat y.toNat).type
                (c.distribution.get (cellAt c.grid x.toNat y.toNat).type - 1)).set zt
              (((c.distribution.set (cellAt c.grid x.toNat y.toNat).type
                (c.distribution.get (cellAt c.grid x.toNat y.toNat).type - 1)).get zt) + 1)) := by
          intro t'
          set old := (cellAt c.grid x.toNat y.toNat).type with hold
          have eqn := countGrid_setCell c.grid x.toNat y.toNat ⟨zt, c.nextId⟩
            hylen hxlen t'
          rw [← hold] at eqn
          have hmt := hm t'
          have hmzt := hm zt
          have hmold := hm old
          rw [Distribution.get_set]
          by_cases h1 : zt = t'
          · subst h1
            rw [if_neg hne, if_pos rfl] at eqn
            rw [Distribution.get_set, if_neg hne, if_pos rfl]
            omega
          · rw [if_neg h1] at eqn ⊢
            rw [Distribution.get_set]
            by_cases h2 : old = t'
            · subst h2
              rw [if_pos rfl] at eqn ⊢
              omega
            · rw [if_neg h2] at eqn ⊢
              omega
        refine ⟨hd1, hm1, ?_, hh⟩
        exact stats_range_of_matches c.gridSize _ _ hd1 hm1

lemma emptyDistribution_matches (g n : Nat) :
    DistMatches (freshGrid g n) (emptyDistribution g) := by
  intro t
  rw [countGrid_freshGrid]
  cases t <;> simp [emptyDistribution, Distribution.get] <;> push_cast <;> ring

lemma initialStats_range : StatsRange initialStats := by
  unfold StatsRange initialStats
  norm_num

lemma clear_good (c : CityModel) (h : Good c) : Good c.clear := by
  obtain ⟨hd, hm, hs, hh⟩ := h
  unfold CityModel.clear
  have hd1 := freshGrid_dims c.gridSize c.nextId
  have hm1 := emptyDistribution_matches c.gridSize c.nextId
  exact ⟨hd1, hm1, stats_range_of_matches _ _ _ hd1 hm1, hh⟩

lemma recalcStats_good (c : CityModel) (h : Good c) : Good c.recalcStats := by
  obtain ⟨hd, hm, hs, hh⟩ := h
  exact ⟨hd, hm, stats_range_of_matches _ _ _ hd hm, hh⟩

lemma saveState_eq (c : CityModel) :
    c.saveState =
      if 50 < (c.history.take (c.historyIndex + 1).toNat ++ [c.snap]).length then
        { c with
            history := (c.history.take (c.historyIndex + 1).toNat ++ [c.snap]).tail
            historyIndex :=
              ((c.history.take (c.historyIndex + 1).toNat ++ [c.snap]).length : Int) - 1 - 1 }
      else
        { c with
            history := c.history.take (c.historyIndex + 1).toNat ++ [c.snap]
            historyIndex :=
              ((c.history.take (c.historyIndex + 1).toNat ++ [c.snap]).length : Int) - 1 } := rfl

lemma saveState_good (c : CityModel) (h : Good c) : Good c.saveState := by
  obtain ⟨hd, hm, hs, hh⟩ := h
  have hsnap : SnapOk c.gridSize c.snap := ⟨hd, hm, hs⟩
  have hall : ∀ s ∈ c.history.take (c.historyIndex + 1).toNat ++ [c.snap],
      SnapOk c.gridSize s := by
    intro s hs'
    rcases List.mem_append.mp hs' with h1 | h1
    · exact hh s (List.mem_of_mem_take h1)
    · rcases List.mem_singleton.mp h1 with rfl
      exact hsnap
  rw [saveState_eq]
  split
  · refine ⟨hd, hm, hs, ?_⟩
    intro s hs'
    exact hall s (List.mem_of_mem_tail hs')
  · exact ⟨hd, hm, hs, hall⟩

lemma undo_good (c : CityModel) (h : Good c) : Good (c.undo).2 := by
  obtain ⟨hd, hm, hs, hh⟩ := h
  unfold CityModel.undo
  split
  · exact ⟨hd, hm, hs, hh⟩
  · have hsnap : SnapOk c.gridSize
        (c.history.getD (c.historyIndex - 1).toNat c.snap) := by
      unfold List.getD
      cases hg : c.history.get? (c.historyIndex - 1).toNat with
      | none => exact ⟨hd, hm, hs⟩
      | some s =>
        have := List.get?_mem hg
        exact hh s this
    exact ⟨hsnap.1, hsnap.2.1, hsnap.2.2, hh⟩

lemma redo_good (c : CityModel) (h : Good c) : Good (c.redo).2 := by
  obtain ⟨hd, hm, hs, hh⟩ := h
  unfold CityModel.redo
  split
  · exact ⟨hd, hm, hs, hh⟩
  · have hsnap : SnapOk c.gridSize
        (c.history.getD (c.historyIndex + 1).toNat c.snap) := by
      unfold List.getD
      cases hg : c.history.get? (c.historyIndex + 1).toNat with
      | none => exact ⟨hd, hm, hs⟩
      | some s =>
        have := List.get?_mem hg
        exact hh s this
    exact ⟨hsnap.1, hsnap.2.1, hsnap.2.2, hh⟩

lemma foldl_good {α : Type} (f : CityModel → α → CityModel)
    (hf : ∀ c a, Good c → Good (f c a)) :
    ∀ (l : List α) (c : CityModel), Good c → Good (List.foldl f c l) := by
  intro l
  induction l with
  | nil => intro c hc; exact hc
  | cons a r ih => intro c hc; exact ih _ (hf c a hc)

lemma foldl_pair_good {α : Type} (f : CityModel × Nat → α → CityModel × Nat)
    (hf : ∀ st a, Good st.1 → Good (f st a).1) :
    ∀ (l : List α) (st : CityModel × Nat), Good st.1 → Good (List.foldl f st l).1 := by
  intro l
  induction l with
  | nil => intro st hst; exact hst
  | cons a r ih => intro st hst; exact ih _ (hf st a hst)

lemma generateRoadNetwork_good (c : CityModel) (h : Good c) :
    Good c.generateRoadNetwork := by
  unfold CityModel.generateRoadNetwork
  refine foldl_good _ (fun c1 i hc1 => ?_) _ _
    (foldl_good _ (fun c1 xx hc1 => ?_) _ _
      (foldl_good _ (fun c1 yy hc1 => ?_) _ _ h))
  · exact foldl_good _ (fun c2 j hc2 => by
      split
      · exact setZone_good _ _ _ _ hc2
      · exact hc2) _ _ hc1
  · exact foldl_good _ (fun c2 yy hc2 => setZone_good _ _ _ _ hc2) _ _ hc1
  · exact foldl_good _ (fun c2 xx hc2 => setZone_good _ _ _ _ hc2) _ _ hc1

lemma ringStep_good (p : LayoutParams) (rnd : Nat → Rat) (center : Nat)
    (st : CityModel × Nat) (x y : Nat) (h : Good st.1) :
    Good (ringStep p rnd center st x y).1 := by
  unfold ringStep
  split
  · exact h
  · cases ringChoice p center
        (((x : Int) - (center : Int)) ^ 2 + ((y : Int) - (center : Int)) ^ 2)
        (rnd st.2) with
    | none => exact h
    | some zt => exact setZone_good _ _ _ _ h

lemma ringPhase_good (p : LayoutParams) (rnd : Nat → Rat) (c : CityModel)
    (h : Good c) : Good (ringPhase p rnd c).1 := by
  unfold ringPhase
  exact foldl_pair_good _
    (fun st y hst => foldl_pair_good _
      (fun st2 x hst2 => ringStep_good p rnd _ st2 x _ hst2) _ _ hst) _ _ h

lemma addTransitHubs_good (c : CityModel) (h : Good c) :
    Good c.addTransitHubs := by
  unfold CityModel.addTransitHubs
  exact foldl_good _
    (fun c' y hc' => foldl_good _
      (fun c'' x hc'' =>
        setZone_good _ _ _ _
          (setZone_good _ _ _ _
            (setZone_good _ _ _ _
              (setZone_good _ _ _ _ hc'')))) _ _ hc') _ _ h

lemma fillArea_good (x1 y1 x2 y2 : Int) (t : String) (c : CityModel)
    (h : Good c) : Good (c.fillArea x1 y1 x2 y2 t) := by
  unfold CityModel.fillArea
  apply saveState_good
  exact foldl_good _
    (fun c' y hc' => foldl_good _
      (fun c'' x hc'' => setZone_good _ _ _ _ hc'') _ _ hc') _ _ h

lemma generateLayout_good (p : LayoutParams) (rnd : Nat → Rat) (c : CityModel)
    (c' : CityModel) (h : Good c) (hgen : c.generateLayout p rnd = some c') :
    Good c' := by
  unfold CityModel.generateLayout at hgen
  split at hgen
  · exact absurd hgen (by simp)
  · simp only [Option.some_inj] at hgen
    subst hgen
    exact saveState_good _ (recalcStats_good _ (addTransitHubs_good _
      (ringPhase_good p rnd _ (generateRoadNetwork_good _ (clear_good c h)))))

lemma create_good (arg : Nat ⊕ String) : Good (CityModel.create arg) := by
  unfold CityModel.create
  apply saveState_good
  cases arg with
  | inl n =>
    exact ⟨freshGrid_dims _ _, emptyDistribution_matches _ _, initialStats_range,
      by intro s hs; simp at hs⟩
  | inr str =>
    exact ⟨freshGrid_dims _ _, emptyDistribution_matches _ _, initialStats_range,
      by intro s hs; simp at hs⟩

/-- One public Grid Model operation, for stating reachability. -/
inductive GridOp where
  | set (x y : Int) (t : String)
  | fill (x1 y1 x2 y2 : Int) (t : String)
  | clearOp
  | generate (p : LayoutParams) (rnd : Nat → Rat)
  | save
  | undoOp
  | redoOp

/-- Apply one Grid Model operation.  For `generate`, a grid size on which
the source's road loops would not terminate produces no observable new
state, so the previous state remains. -/
def applyOp (c : CityModel) : GridOp → CityModel
  | .set x y t => c.setZone x y t
  | .fill x1 y1 x2 y2 t => c.fillArea x1 y1 x2 y2 t
  | .clearOp => c.clear
  | .generate p rnd => (c.generateLayout p rnd).getD c
  | .save => c.saveState
  | .undoOp => (c.undo).2
  | .redoOp => (c.redo).2

/-- Apply a sequence of Grid Model operations. -/
def applyOps (c : CityModel) (ops : List GridOp) : CityModel :=
  ops.foldl applyOp c

lemma applyOp_good (c : CityModel) (op : GridOp) (h : Good c) :
    Good (applyOp c op) := by
  cases op with
  | set x y t => exact setZone_good x y t c h
  | fill x1 y1 x2 y2 t => exact fillArea_good x1 y1 x2 y2 t c h
  | clearOp => exact clear_good c h
  | generate p rnd =>
    show Good ((c.generateLayout p rnd).getD c)
    cases hg : c.generateLayout p rnd with
    | none => exact h
    | some c' => exact generateLayout_good p rnd c c' h hg
  | save => exact saveState_good c h
  | undoOp => exact undo_good c h
  | redoOp => exact redo_good c h

lemma applyOps_good (c : CityModel) (ops : List GridOp) (h : Good c) :
    Good (applyOps c ops) := by
  unfold applyOps
  exact foldl_good applyOp applyOp_good ops c h

/-- C6: in every state reachable from a constructed City through the Grid
Model's own operations (setZone, fillArea, clear, generateLayout,
saveState, undo, redo), each bounded indicator — greenCoverage,
transitScore, walkability, airQuality, energyEfficiency and
sustainabilityScore — lies within [0, 100]. -/
theorem C6_bounded_indicators (arg : Nat ⊕ String) (ops : List GridOp) :
    StatsRange (applyOps (CityModel.create arg) ops).stats :=
  (applyOps_good (CityModel.create arg) ops (create_good arg)).2.2.1

/-- C3: after any finite sequence of setZone calls with arbitrary integer
coordinates and arbitrary type strings on a freshly constructed City, the
distribution counts sum to gridSize squared and every count is
non-negative; clear additionally resets the empty count to gridSize
squared. -/
theorem C3_distribution_invariant (arg : Nat ⊕ String)
    (ops : List (Int × Int × String)) :
    (ops.foldl (fun acc q => acc.setZone q.1 q.2.1 q.2.2)
        (CityModel.create arg)).distribution.total =
      ((ops.foldl (fun acc q => acc.setZone q.1 q.2.1 q.2.2)
        (CityModel.create arg)).gridSize : Int) *
      ((ops.foldl (fun acc q => acc.setZone q.1 q.2.1 q.2.2)
        (CityModel.create arg)).gridSize : Int) ∧
    (∀ t, 0 ≤ (ops.foldl (fun acc q => acc.setZone q.1 q.2.1 q.2.2)
        (CityModel.create arg)).distribution.get t) ∧
    (ops.foldl (fun acc q => acc.setZone q.1 q.2.1 q.2.2)
        (CityModel.create arg)).clear.distribution.empty =
      ((ops.foldl (fun acc q => acc.setZone q.1 q.2.1 q.2.2)
        (CityModel.create arg)).gridSize : Int) *
      ((ops.foldl (fun acc q => acc.setZone q.1 q.2.1 q.2.2)
        (CityModel.create arg)).gridSize : Int) := by
  have hgood : Good (ops.foldl (fun acc q => acc.setZone q.1 q.2.1 q.2.2)
      (CityModel.create arg)) :=
    foldl_good _ (fun c q hc => setZone_good q.1 q.2.1 q.2.2 c hc) ops _
      (create_good arg)
  obtain ⟨hd, hm, _, _⟩ := hgood
  refine ⟨dist_total_of_matches _ _ _ hd hm, ?_, ?_⟩
  · intro t
    rw [hm t]
    positivity
  · simp [CityModel.clear, emptyDistribution]

lemma cellAt_setCell_same (grid : GridT) (x y : Nat) (z : Zone)
    (hy : y < grid.length) (hx : x < (grid.getD y []).length) :
    cellAt (setCell grid x y z) x y = z := by
  unfold cellAt setCell
  have hy2 : y < (grid.set y ((grid.getD y []).set x z)).length := by
    simpa using hy
  rw [List.getD_eq_getElem _ _ hy2, List.getElem_set_self]
  have hx2 : x < ((grid.getD y []).set x z).length := by simpa using hx
  rw [List.getD_eq_getElem _ _ hx2, List.getElem_set_self]

lemma getD_set_ne_generic {α : Type} (l : List α) (i j : Nat) (a d : α)
    (h : i ≠ j) : (l.set i a).getD j d = l.getD j d := by
  unfold List.getD
  rw [List.get?_set_ne a l h]

lemma cellAt_setCell_ne (grid : GridT) (x y x' y' : Nat) (z : Zone)
    (hne : x' ≠ x ∨ y' ≠ y) :
    cellAt (setCell grid x y z) x' y' = cellAt grid x' y' := by
  unfold cellAt setCell
  by_cases hyy : y' = y
  · subst hyy
    have hx' : x' ≠ x := hne.resolve_right (fun h => h rfl)
    by_cases hylen : y' < grid.length
    · have h1 : (grid.set y' ((grid.getD y' []).set x z)).getD y' [] =
          (grid.getD y' []).set x z := by
        rw [List.getD_eq_getElem _ _ (by simpa using hylen),
          List.getElem_set_self]
      rw [h1, getD_set_ne_generic _ _ _ _ _ (Ne.symm hx')]
    · rw [List.set_eq_of_length_le (Nat.le_of_not_lt hylen)]
  · have h1 : (grid.set y ((grid.getD y []).set x z)).getD y' [] =
        grid.getD y' [] :=
      getD_set_ne_generic _ _ _ _ _ (Ne.symm hyy)
    rw [h1]

/-- The distribution after a successful `setZone`: old type decremented,
new type incremented. -/
def distAfterSet (d : Distribution) (old zt : ZoneType) : Distribution :=
  (d.set old (d.get old - 1)).set zt ((d.set old (d.get old - 1)).get zt + 1)

lemma distAfterSet_get_old (d : Distribution) (old zt : ZoneType)
    (hne : old ≠ zt) : (distAfterSet d old zt).get old = d.get old - 1 := by
  unfold distAfterSet
  rw [Distribution.get_set, if_neg (Ne.symm hne), Distribution.get_set,
    if_pos rfl]

lemma distAfterSet_get_new (d : Distribution) (old zt : ZoneType)
    (hne : old ≠ zt) : (distAfterSet d old zt).get zt = d.get zt + 1 := by
  unfold distAfterSet
  rw [Distribution.get_set, if_pos rfl, Distribution.get_set, if_neg hne]

lemma distAfterSet_get_other (d : Distribution) (old zt u : ZoneType)
    (h1 : u ≠ old) (h2 : u ≠ zt) :
    (distAfterSet d old zt).get u = d.get u := by
  unfold distAfterSet
  rw [Distribution.get_set, if_neg (Ne.symm h2), Distribution.get_set,
    if_neg (Ne.symm h1)]

lemma setZone_eq_of_oob (x y : Int) (t : String) (c : CityModel)
    (h : x < 0 ∨ (c.gridSize : Int) ≤ x ∨ y < 0 ∨ (c.gridSize : Int) ≤ y) :
    c.setZone x y t = c := by
  unfold CityModel.setZone
  rw [if_pos h]

lemma setZone_eq_of_parse_none (x y : Int) (t : String) (c : CityModel)
    (hp : parseZoneType t = none) : c.setZone x y t = c := by
  unfold CityModel.setZone
  split
  · rfl
  · rw [hp]

lemma setZone_eq_of_same (x y : Int) (t : String) (c : CityModel)
    (zt : ZoneType) (hp : parseZoneType t = some zt)
    (hsame : (cellAt c.grid x.toNat y.toNat).type = zt) :
    c.setZone x y t = c := by
  unfold CityModel.setZone
  split
  · rfl
  · rw [hp]
    simp only
    rw [if_pos hsame]

lemma setZone_success_eq (x y : Int) (t : String) (c : CityModel)
    (zt : ZoneType) (hp : parseZoneType t = some zt)
    (hbnd : ¬(x < 0 ∨ (c.gridSize : Int) ≤ x ∨ y < 0 ∨ (c.gridSize : Int) ≤ y))
    (hne : (cellAt c.grid x.toNat y.toNat).type ≠ zt) :
    c.setZone x y t =
      { c with
          distribution :=
            distAfterSet c.distribution (cellAt c.grid x.toNat y.toNat).type zt
          grid := setCell c.grid x.toNat y.toNat ⟨zt, c.nextId⟩
          nextId := c.nextId + 1
          stats := calculateStats c.gridSize
            (distAfterSet c.distribution (cellAt c.grid x.toNat y.toNat).type zt) } := by
  unfold CityModel.setZone
  rw [if_neg hbnd, hp]
  simp only
  rw [if_neg hne]
  rfl

/-- All cell identities in the grid are strictly below the fresh-id
counter, so the next generated id is new. -/
def IdsFresh (c : CityModel) : Prop :=
  ∀ row ∈ c.grid, ∀ z ∈ row, z.id < c.nextId

lemma cellAt_id_lt (c : CityModel) (x y : Nat) (hid : IdsFresh c)
    (hy : y < c.grid.length) (hx : x < (c.grid.getD y []).length) :
    (cellAt c.grid x y).id < c.nextId := by
  have hrow : c.grid.getD y [] ∈ c.grid := by
    rw [List.getD_eq_getElem _ _ hy]
    exact List.getElem_mem hy
  have hcell : cellAt c.grid x y ∈ c.grid.getD y [] := by
    unfold cellAt
    rw [List.getD_eq_getElem _ _ hx]
    exact List.getElem_mem hx
  exact hid _ hrow _ hcell

/-- C8: setZone is a no-op when the coordinates are out of range, the type
string is not in the Zone Catalog, or the type equals the cell's current
type (hence an immediately repeated identical call is a no-op); otherwise
it decrements the old type's count, increments the new type's count,
replaces exactly the addressed cell with a fresh Zone carrying a new
identity, leaves every other cell unchanged, and recomputes the
statistics from the new distribution. -/
theorem C8_setZone_spec (x y : Int) (t : String) (c : CityModel)
    (hg : Good c) (hid : IdsFresh c) :
    ((x < 0 ∨ (c.gridSize : Int) ≤ x ∨ y < 0 ∨ (c.gridSize : Int) ≤ y) →
        c.setZone x y t = c) ∧
    (parseZoneType t = none → c.setZone x y t = c) ∧
    (∀ zt, parseZoneType t = some zt →
        (cellAt c.grid x.toNat y.toNat).type = zt → c.setZone x y t = c) ∧
    ((c.setZone x y t).setZone x y t = c.setZone x y t) ∧
    (∀ zt, parseZoneType t = some zt →
      ¬(x < 0 ∨ (c.gridSize : Int) ≤ x ∨ y < 0 ∨ (c.gridSize : Int) ≤ y) →
      (cellAt c.grid x.toNat y.toNat).type ≠ zt →
      (c.setZone x y t).distribution.get (cellAt c.grid x.toNat y.toNat).type =
          c.distribution.get (cellAt c.grid x.toNat y.toNat).type - 1 ∧
      (c.setZone x y t).distribution.get zt = c.distribution.get zt + 1 ∧
      (∀ u, u ≠ (cellAt c.grid x.toNat y.toNat).type → u ≠ zt →
          (c.setZone x y t).distribution.get u = c.distribution.get u) ∧
      cellAt (c.setZone x y t).grid x.toNat y.toNat =
          ⟨zt, c.nextId⟩ ∧
      (cellAt (c.setZone x y t).grid x.toNat y.toNat).id ≠
          (cellAt c.grid x.toNat y.toNat).id ∧
      (∀ x' y', x' ≠ x.toNat ∨ y' ≠ y.toNat →
          cellAt (c.setZone x y t).grid x' y' = cellAt c.grid x' y') ∧
      (c.setZone x y t).stats =
          calculateStats c.gridSize (c.setZone x y t).distribution) := by
  refine ⟨fun h => setZone_eq_of_oob x y t c h, ?_, ?_, ?_, ?_⟩
  · exact fun hp => setZone_eq_of_parse_none x y t c hp
  · exact fun zt hp hsame => setZone_eq_of_same x y t c zt hp hsame
  · by_cases hbnd : x < 0 ∨ (c.gridSize : Int) ≤ x ∨ y < 0 ∨ (c.gridSize : Int) ≤ y
    · rw [setZone_eq_of_oob x y t c hbnd]
      exact setZone_eq_of_oob x y t c hbnd
    · cases hp : parseZoneType t with
      | none =>
        rw [setZone_eq_of_parse_none x y t c hp]
        exact setZone_eq_of_parse_none x y t c hp
      | some zt =>
        by_cases hsame : (cellAt c.grid x.toNat y.toNat).type = zt
        · rw [setZone_eq_of_same x y t c zt hp hsame]
          exact setZone_eq_of_same x y t c zt hp hsame
        · rw [setZone_success_eq x y t c zt hp hbnd hsame]
          apply setZone_eq_of_same _ _ _ _ zt hp
          push_neg at hbnd
          obtain ⟨hx0, hxg, hy0, hyg⟩ := hbnd
          have hyl : y.toNat < c.grid.length := by
            have := hg.1.1
            omega
          have hxl : x.toNat < (c.grid.getD y.toNat []).length := by
            rw [row_len_of_dims c.gridSize c.grid hg.1 y.toNat (by omega)]
            omega
          show (cellAt (setCell c.grid x.toNat y.toNat ⟨zt, c.nextId⟩)
            x.toNat y.toNat).type = zt
          rw [cellAt_setCell_same c.grid x.toNat y.toNat _ hyl hxl]
  · intro zt hp hbnd hne
    push_neg at hbnd
    obtain ⟨hx0, hxg, hy0, hyg⟩ := hbnd
    have hbnd' : ¬(x < 0 ∨ (c.gridSize : Int) ≤ x ∨ y < 0 ∨ (c.gridSize : Int) ≤ y) := by
      push_neg
      exact ⟨hx0, hxg, hy0, hyg⟩
    have hyl : y.toNat < c.grid.length := by
      have := hg.1.1
      omega
    have hxl : x.toNat < (c.grid.getD y.toNat []).length := by
      rw [row_len_of_dims c.gridSize c.grid hg.1 y.toNat (by omega)]
      omega
    rw [setZone_success_eq x y t c zt hp hbnd' hne]
    refine ⟨distAfterSet_get_old _ _ _ hne, distAfterSet_get_new _ _ _ hne,
      fun u h1 h2 => distAfterSet_get_other _ _ _ u h1 h2, ?_, ?_, ?_, rfl⟩
    · exact cellAt_setCell_same c.grid x.toNat y.toNat _ hyl hxl
    · rw [cellAt_setCell_same c.grid x.toNat y.toNat _ hyl hxl]
      have := cellAt_id_lt c x.toNat y.toNat hid hyl hxl
      simp only
      omega
    · intro x' y' hne'
      exact cellAt_setCell_ne c.grid x.toNat y.toNat x' y' _ hne'


lemma freshGrid_ids (g n : Nat) :
    ∀ row ∈ freshGrid g n, ∀ z ∈ row, z.id < n + g * g := by
  intro row hrow z hz
  simp only [freshGrid, List.mem_map, List.mem_range] at hrow
  obtain ⟨y, hy, rfl⟩ := hrow
  simp only [List.mem_map, List.mem_range] at hz
  obtain ⟨x, hx, rfl⟩ := hz
  simp only
  have h1 : (y + 1) * g = y * g + g := Nat.succ_mul y g
  have h2 : (y + 1) * g ≤ g * g := Nat.mul_le_mul_right g hy
  omega

lemma saveState_grid (c : CityModel) : c.saveState.grid = c.grid := by
  rw [saveState_eq]
  split <;> rfl

lemma saveState_nextId (c : CityModel) : c.saveState.nextId = c.nextId := by
  rw [saveState_eq]
  split <;> rfl

lemma IdsFresh_saveState (c : CityModel) (h : IdsFresh c) :
    IdsFresh c.saveState := by
  intro row hrow z hz
  rw [saveState_grid] at hrow
  rw [saveState_nextId]
  exact h row hrow z hz

lemma create_idsFresh (arg : Nat ⊕ String) : IdsFresh (CityModel.create arg) := by
  cases arg with
  | inl n =>
    unfold CityModel.create
    apply IdsFresh_saveState
    intro row hrow z hz
    exact freshGrid_ids _ 1 row hrow z hz
  | inr str =>
    unfold CityModel.create
    apply IdsFresh_saveState
    intro row hrow z hz
    exact freshGrid_ids _ 1 row hrow z hz

/-- Witness for C8 at a concrete city and input: the second identical call
is a no-op. -/
theorem C8_setZone_spec_witness :
    ((CityModel.create (.inl 2)).setZone 0 0 "residential").setZone 0 0
        "residential" =
      (CityModel.create (.inl 2)).setZone 0 0 "residential" :=
  (C8_setZone_spec 0 0 "residential" (CityModel.create (.inl 2))
    (create_good (.inl 2)) (create_idsFresh (.inl 2))).2.2.2.1

/-- The history invariant: cursor in range of a non-empty history, length
capped at 50. -/
def HistInv (c : CityModel) : Prop :=
  0 ≤ c.historyIndex ∧ c.historyIndex < c.history.length ∧
    c.history.length ≤ 50

/-- One history operation. -/
inductive HistOp where
  | save
  | undoOp
  | redoOp

/-- Apply one history operation, discarding the boolean result of
undo/redo. -/
def applyHistOp (c : CityModel) : HistOp → CityModel
  | .save => c.saveState
  | .undoOp => (c.undo).2
  | .redoOp => (c.redo).2

/-- Apply a sequence of history operations. -/
def applyHistOps (c : CityModel) (ops : List HistOp) : CityModel :=
  ops.foldl applyHistOp c

lemma saveState_histInv (c : CityModel) (h : HistInv c) :
    HistInv c.saveState := by
  obtain ⟨h0, h1, h2⟩ := h
  rw [saveState_eq]
  have htake : (c.history.take (c.historyIndex + 1).toNat).length =
      (c.historyIndex + 1).toNat := by
    rw [List.length_take]
    omega
  split
  next hlen =>
    refine ⟨?_, ?_, ?_⟩ <;>
      simp only [List.length_tail, List.length_append, List.length_singleton,
        htake] at hlen ⊢ <;> omega
  next hlen =>
    refine ⟨?_, ?_, ?_⟩ <;>
      simp only [List.length_append, List.length_singleton, htake] at hlen ⊢ <;>
      omega

lemma undo_eq (c : CityModel) :
    c.undo =
      if c.historyIndex ≤ 0 then (false, c)
      else
        (true,
          { c with
              historyIndex := c.historyIndex - 1
              grid := (c.history.getD (c.historyIndex - 1).toNat c.snap).grid
              distribution :=
                (c.history.getD (c.historyIndex - 1).toNat c.snap).distribution
              stats := (c.history.getD (c.historyIndex - 1).toNat c.snap).stats }) :=
  rfl

lemma redo_eq (c : CityModel) :
    c.redo =
      if (c.history.length : Int) - 1 ≤ c.historyIndex then (false, c)
      else
        (true,
          { c with
              historyIndex := c.historyIndex + 1
              grid := (c.history.getD (c.historyIndex + 1).toNat c.snap).grid
              distribution :=
                (c.history.getD (c.historyIndex + 1).toNat c.snap).distribution
              stats := (c.history.getD (c.historyIndex + 1).toNat c.snap).stats }) :=
  rfl

lemma undo_histInv (c : CityModel) (h : HistInv c) : HistInv (c.undo).2 := by
  obtain ⟨h0, h1, h2⟩ := h
  rw [undo_eq]
  split
  · exact ⟨h0, h1, h2⟩
  next hidx =>
    exact ⟨show (0 : Int) ≤ c.historyIndex - 1 by omega,
      show c.historyIndex - 1 < (c.history.length : Int) by omega,
      show c.history.length ≤ 50 by omega⟩

lemma redo_histInv (c : CityModel) (h : HistInv c) : HistInv (c.redo).2 := by
  obtain ⟨h0, h1, h2⟩ := h
  rw [redo_eq]
  split
  · exact ⟨h0, h1, h2⟩
  next hidx =>
    exact ⟨show (0 : Int) ≤ c.historyIndex + 1 by omega,
      show c.historyIndex + 1 < (c.history.length : Int) by omega,
      show c.history.length ≤ 50 by omega⟩

lemma applyHistOps_histInv (c : CityModel) (ops : List HistOp)
    (h : HistInv c) : HistInv (applyHistOps c ops) := by
  unfold applyHistOps
  induction ops generalizing c with
  | nil => exact h
  | cons op rest ih =>
    apply ih
    cases op with
    | save => exact saveState_histInv c h
    | undoOp => exact undo_histInv c h
    | redoOp => exact redo_histInv c h

lemma getD_congr_default {α : Type} (l : List α) (n : Nat) (d1 d2 : α)
    (h : n < l.length) : l.getD n d1 = l.getD n d2 := by
  rw [List.getD_eq_getElem _ _ h, List.getD_eq_getElem _ _ h]

lemma saveState_evict (c : CityModel) (hlen : c.history.length = 50)
    (hidx : c.historyIndex = 49) :
    c.saveState.history = c.history.tail ++ [c.snap] ∧
      c.saveState.historyIndex = 49 := by
  rw [saveState_eq]
  have htake : c.history.take (c.historyIndex + 1).toNat = c.history := by
    rw [hidx]
    exact List.take_of_length_le (by omega)
  rw [htake]
  rw [if_pos (by simp [hlen])]
  have hne : c.history ≠ [] := by
    intro hcon
    rw [hcon] at hlen
    simp at hlen
  refine ⟨List.tail_append_of_ne_nil hne, ?_⟩
  simp [hlen]

lemma undo_iter (c : CityModel) (h : HistInv c) :
    ∀ j : Nat, (j : Int) ≤ c.historyIndex →
      (applyHistOps c (List.replicate j .undoOp)).history = c.history ∧
      (applyHistOps c (List.replicate j .undoOp)).historyIndex =
        c.historyIndex - j ∧
      (∀ d : Snapshot, 1 ≤ j →
        (applyHistOps c (List.replicate j .undoOp)).grid =
          (c.history.getD (c.historyIndex - j).toNat d).grid ∧
        (applyHistOps c (List.replicate j .undoOp)).distribution =
          (c.history.getD (c.historyIndex - j).toNat d).distribution ∧
        (applyHistOps c (List.replicate j .undoOp)).stats =
          (c.history.getD (c.historyIndex - j).toNat d).stats) := by
  intro j
  induction j generalizing c with
  | zero =>
    intro _
    refine ⟨rfl, ?_, ?_⟩
    · show c.historyIndex = c.historyIndex - ((0 : Nat) : Int)
      push_cast
      ring
    · intro d hcon
      omega
  | succ k ih =>
    intro hj
    obtain ⟨h0, h1, h2⟩ := h
    have hpos : ¬ c.historyIndex ≤ 0 := by
      push_cast at hj
      omega
    have hstep : applyHistOps c (List.replicate (k + 1) .undoOp) =
        applyHistOps (c.undo).2 (List.replicate k .undoOp) := by
      rw [List.replicate_succ]
      rfl
    have hc1 : (c.undo).2 =
        { c with
            historyIndex := c.historyIndex - 1
            grid := (c.history.getD (c.historyIndex - 1).toNat c.snap).grid
            distribution :=
              (c.history.getD (c.historyIndex - 1).toNat c.snap).distribution
            stats := (c.history.getD (c.historyIndex - 1).toNat c.snap).stats } := by
      rw [undo_eq, if_neg hpos]
    have hinv1 : HistInv (c.undo).2 := undo_histInv c ⟨h0, h1, h2⟩
    have hj1 : (k : Int) ≤ ((c.undo).2).historyIndex := by
      rw [hc1]
      push_cast at hj ⊢
      omega
    obtain ⟨ih1, ih2, ih3⟩ := ih ((c.undo).2) hinv1 hj1
    rw [hstep]
    have hidx1 : ((c.undo).2).historyIndex = c.historyIndex - 1 := by rw [hc1]
    have hhist1 : ((c.undo).2).history = c.history := by rw [hc1]
    refine ⟨by rw [ih1, hhist1], ?_, ?_⟩
    · rw [ih2, hidx1]
      push_cast
      ring
    · intro d _
      by_cases hk : 1 ≤ k
      · obtain ⟨g1, g2, g3⟩ := ih3 d hk
        rw [hhist1, hidx1] at g1 g2 g3
        have harith : (c.historyIndex - 1 - (k : Int)) =
            c.historyIndex - ((k : Nat) + 1 : Nat) := by
          push_cast
          ring
        rw [harith] at g1 g2 g3
        exact ⟨g1, g2, g3⟩
      · have hk0 : k = 0 := by omega
        subst hk0
        have hend : applyHistOps ((c.undo).2) (List.replicate 0 .undoOp) =
            (c.undo).2 := rfl
        rw [hend, hc1]
        have hrange : (c.historyIndex - 1).toNat < c.history.length := by
          omega
        have harith : (c.historyIndex - ((0 : Nat) + 1 : Nat)) =
            c.historyIndex - 1 := by
          push_cast
          ring
        rw [harith]
        exact ⟨congrArg Snapshot.grid (getD_congr_default _ _ _ _ hrange),
          congrArg Snapshot.distribution (getD_congr_default _ _ _ _ hrange),
          congrArg Snapshot.stats (getD_congr_default _ _ _ _ hrange)⟩

/-- C7: under any sequence of saveState, undo and redo calls the history
stays at most 50 snapshots long with the cursor in range; a saveState from
a full history at the end evicts the oldest snapshot and leaves the cursor
shifted back by one; and repeated undo from the end reaches exactly the
oldest retained snapshot (index 0) and no further (the next undo reports
failure and changes nothing). -/
theorem C7_history_cap (c : CityModel) (ops : List HistOp) (h : HistInv c) :
    HistInv (applyHistOps c ops) ∧
    (c.history.length = 50 ∧ c.historyIndex = 49 →
      c.saveState.history = c.history.tail ++ [c.snap] ∧
        c.saveState.historyIndex = 49) ∧
    (applyHistOps c (List.replicate c.historyIndex.toNat .undoOp)).historyIndex
        = 0 ∧
    (applyHistOps c (List.replicate c.historyIndex.toNat .undoOp)).history
        = c.history ∧
    (∀ d : Snapshot, 1 ≤ c.historyIndex.toNat →
      (applyHistOps c (List.replicate c.historyIndex.toNat .undoOp)).grid =
          (c.history.getD 0 d).grid ∧
      (applyHistOps c (List.replicate c.historyIndex.toNat .undoOp)).distribution
          = (c.history.getD 0 d).distribution ∧
      (applyHistOps c (List.replicate c.historyIndex.toNat .undoOp)).stats =
          (c.history.getD 0 d).stats) ∧
    ((applyHistOps c (List.replicate c.historyIndex.toNat .undoOp)).undo).1 =
        false ∧
    ((applyHistOps c (List.replicate c.historyIndex.toNat .undoOp)).undo).2 =
        applyHistOps c (List.replicate c.historyIndex.toNat .undoOp) := by
  obtain ⟨h0, h1, h2⟩ := h
  obtain ⟨hiter1, hiter2, hiter3⟩ :=
    undo_iter c ⟨h0, h1, h2⟩ c.historyIndex.toNat (by omega)
  have hidx0 : (applyHistOps c
      (List.replicate c.historyIndex.toNat .undoOp)).historyIndex = 0 := by
    rw [hiter2]
    omega
  refine ⟨applyHistOps_histInv c ops ⟨h0, h1, h2⟩,
    fun hfull => saveState_evict c hfull.1 hfull.2, hidx0, hiter1, ?_, ?_, ?_⟩
  · intro d hge
    obtain ⟨g1, g2, g3⟩ := hiter3 d hge
    have hz : (c.historyIndex - (c.historyIndex.toNat : Int)).toNat = 0 := by
      omega
    rw [hz] at g1 g2 g3
    exact ⟨g1, g2, g3⟩
  · rw [undo_eq, if_pos (by rw [hidx0])]
  · rw [undo_eq, if_pos (by rw [hidx0])]

/-- Witness for C7 at a concrete city and operation sequence. -/
theorem C7_history_cap_witness :
    HistInv (applyHistOps (CityModel.create (.inl 2))
      [HistOp.save, HistOp.undoOp]) :=
  (C7_history_cap (CityModel.create (.inl 2)) [HistOp.save, HistOp.undoOp]
    (by unfold HistInv; with_unfolding_all decide)).1

lemma setZone_frame (x y : Int) (t : String) (c : CityModel) :
    (c.setZone x y t).history = c.history ∧
      (c.setZone x y t).historyIndex = c.historyIndex ∧
      (c.setZone x y t).gridSize = c.gridSize := by
  unfold CityModel.setZone
  split
  · exact ⟨rfl, rfl, rfl⟩
  · cases parseZoneType t with
    | none => exact ⟨rfl, rfl, rfl⟩
    | some zt =>
      simp only
      split
      · exact ⟨rfl, rfl, rfl⟩
      · exact ⟨rfl, rfl, rfl⟩

lemma saveState_restore_point (c : CityModel) (h : HistInv c)
    (htop : c.history.getD c.historyIndex.toNat c.snap = c.snap) :
    0 < c.saveState.historyIndex ∧
    ∀ d, c.saveState.history.getD
        (c.saveState.historyIndex - 1).toNat d = c.snap := by
  obtain ⟨h0, h1, h2⟩ := h
  have hhlt : c.historyIndex.toNat < c.history.length := by omega
  have htoplem : c.history[c.historyIndex.toNat] = c.snap := by
    rw [← List.getD_eq_getElem c.history c.snap hhlt]
    exact htop
  rw [saveState_eq]
  have htakelen : (c.history.take (c.historyIndex + 1).toNat).length =
      (c.historyIndex + 1).toNat := by
    rw [List.length_take]
    omega
  split
  next hbig =>
    simp only [List.length_append, List.length_singleton, htakelen] at hbig
    have hi49 : c.historyIndex = 49 := by omega
    have hlen50 : c.history.length = 50 := by omega
    have htake : c.history.take (c.historyIndex + 1).toNat = c.history := by
      rw [hi49]
      exact List.take_of_length_le (by omega)
    rw [htake]
    constructor
    · simp only [List.length_tail, List.length_append, List.length_singleton]
      omega
    · intro d
      have hidxv : ((((c.history ++ [c.snap]).length : Int) - 1 - 1) - 1).toNat
          = 48 := by
        simp only [List.length_append, List.length_singleton]
        omega
      simp only [hidxv]
      have htail : (c.history ++ [c.snap]).tail = c.history.tail ++ [c.snap] :=
        List.tail_append_of_ne_nil (by
          intro hcon
          rw [hcon] at hlen50
          simp at hlen50)
      rw [htail]
      have h48 : (48 : Nat) < (c.history.tail ++ [c.snap]).length := by
        simp only [List.length_append, List.length_singleton, List.length_tail]
        omega
      rw [List.getD_eq_getElem _ _ h48]
      rw [List.getElem_append_left (by simp [List.length_tail]; omega)]
      rw [List.getElem_tail]
      have : (48 : Nat) + 1 = c.historyIndex.toNat := by omega
      simp only [this]
      exact htoplem
  next hsmall =>
    constructor
    · simp only [List.length_append, List.length_singleton, htakelen]
      omega
    · intro d
      have hidxv : ((((c.history.take (c.historyIndex + 1).toNat ++
          [c.snap]).length : Int) - 1) - 1).toNat = c.historyIndex.toNat := by
        simp only [List.length_append, List.length_singleton, htakelen]
        omega
      simp only [hidxv]
      have hlt : c.historyIndex.toNat <
          (c.history.take (c.historyIndex + 1).toNat ++ [c.snap]).length := by
        simp only [List.length_append, List.length_singleton, htakelen]
        omega
      rw [List.getD_eq_getElem _ _ hlt]
      rw [List.getElem_append_left (by rw [htakelen]; omega)]
      rw [List.getElem_take]
      exact htoplem

/-- C1 (amended): saveState(); m; undo() with m a single non-snapshotting
mutation returns success and restores the exact pre-mutation grid,
distribution and stats, provided the City's current grid, distribution and
stats coincide with its latest snapshot (history[historyIndex]) — which
holds whenever every earlier mutation was itself followed by a saveState.
Without that proviso undo restores the snapshot before the one just saved,
not the pre-mutation state (see the counterexample). -/
theorem C1_undo_after_save (x y : Int) (t : String) (c : CityModel)
    (h : HistInv c)
    (htop : c.history.getD c.historyIndex.toNat c.snap = c.snap) :
    ((c.saveState.setZone x y t).undo).1 = true ∧
    ((c.saveState.setZone x y t).undo).2.grid = c.grid ∧
    ((c.saveState.setZone x y t).undo).2.distribution = c.distribution ∧
    ((c.saveState.setZone x y t).undo).2.stats = c.stats := by
  obtain ⟨hpos, hrestore⟩ := saveState_restore_point c h htop
  obtain ⟨f1, f2, f3⟩ := setZone_frame x y t c.saveState
  have hpos2 : ¬ (c.saveState.setZone x y t).historyIndex ≤ 0 := by
    rw [f2]
    omega
  rw [undo_eq, if_neg hpos2]
  rw [f1, f2]
  rw [hrestore ((c.saveState.setZone x y t).snap)]
  exact ⟨rfl, rfl, rfl, rfl⟩

/-- Witness for C1 on a fresh City, whose state matches its initial
snapshot. -/
theorem C1_undo_after_save_witness :
    (((CityModel.create (.inl 2)).saveState.setZone 0 0 "residential").undo).1
        = true ∧
    (((CityModel.create (.inl 2)).saveState.setZone 0 0
        "residential").undo).2.grid = (CityModel.create (.inl 2)).grid ∧
    (((CityModel.create (.inl 2)).saveState.setZone 0 0
        "residential").undo).2.distribution =
      (CityModel.create (.inl 2)).distribution ∧
    (((CityModel.create (.inl 2)).saveState.setZone 0 0
        "residential").undo).2.stats = (CityModel.create (.inl 2)).stats :=
  C1_undo_after_save 0 0 "residential" (CityModel.create (.inl 2))
    (by unfold HistInv; with_unfolding_all decide)
    (by with_unfolding_all decide)

/-- C1 counterexample: from a City that was mutated after its last
snapshot, saveState(); m; undo() returns success but does not restore the
pre-mutation state — the cell set before the save comes back empty. -/
theorem C1_roundtrip_counterexample :
    (((((CityModel.create (.inl 2)).setZone 0 0
          "residential").saveState).setZone 1 1 "residential").undo).1 =
        true ∧
    (cellAt ((((CityModel.create (.inl 2)).setZone 0 0
          "residential").saveState).grid) 0 0).type =
        ZoneType.residential ∧
    (cellAt (((((CityModel.create (.inl 2)).setZone 0 0
          "residential").saveState).setZone 1 1
          "residential").undo).2.grid 0 0).type = ZoneType.empty ∧
    (((((CityModel.create (.inl 2)).setZone 0 0
          "residential").saveState).setZone 1 1 "residential").undo).2.grid ≠
      ((((CityModel.create (.inl 2)).setZone 0 0
          "residential").saveState)).grid := by
  refine ⟨?_, ?_, ?_, ?_⟩ <;> with_unfolding_all decide

/-- A gridSize-10 City with every cell set to residential (the concrete
scenario of the spec). -/
def fullResidentialCity : CityModel :=
  (CityModel.create (.inl 10)).fillArea 0 0 9 9 "residential"

/-- C4 counterexample: on the all-residential 10-by-10 City the code
computes transitScore from the residential ratio (1), giving
round(50 - 30) = 20, not the claimed 0. -/
theorem C4_counterexample :
    fullResidentialCity.distribution.residential = 100 ∧
    fullResidentialCity.distribution.empty = 0 ∧
    fullResidentialCity.stats.transitScore = 20 ∧
    fullResidentialCity.stats.transitScore ≠ 0 := by
  refine ⟨?_, ?_, ?_, ?_⟩ <;> with_unfolding_all decide

/-- C4 (amended): the all-residential 10-by-10 City yields
greenCoverage = 0, transitScore = 20 (the formula uses the residential
ratio 100/100 = 1, so round(50 + 0*200 - 1*30) = 20), and airQuality = 60. -/
theorem C4_full_residential_stats :
    fullResidentialCity.stats.greenCoverage = 0 ∧
    fullResidentialCity.stats.transitScore = 20 ∧
    fullResidentialCity.stats.airQuality = 60 := by
  refine ⟨?_, ?_, ?_⟩ <;> with_unfolding_all decide

/-- The statistics record agrees with the pure recomputation from the
current distribution. -/
def StatsFresh (c : CityModel) : Prop :=
  c.stats = calculateStats c.gridSize c.distribution

/-- Statistics freshness for the dynamic city shape of the import path. -/
def DynStatsFresh (c : DynCity) : Prop :=
  ∃ dist, c.distribution = some dist ∧
    c.stats = calculateStats c.gridSize dist

/-- C5 counterexample: immediately after construction the seeded literal
statistics are observable and differ from calculateStats applied to the
(all-empty) distribution — airQuality is 70 while the formula yields 60. -/
theorem C5_counterexample :
    (CityModel.create (.inl 10)).stats.airQuality = 70 ∧
    (calculateStats (CityModel.create (.inl 10)).gridSize
        (CityModel.create (.inl 10)).distribution).airQuality = 60 ∧
    ¬ StatsFresh (CityModel.create (.inl 10)) := by
  refine ⟨?_, ?_, ?_⟩
  · with_unfolding_all decide
  · with_unfolding_all decide
  · unfold StatsFresh
    with_unfolding_all decide

lemma saveState_stats (c : CityModel) : c.saveState.stats = c.stats := by
  rw [saveState_eq]
  split <;> rfl

lemma saveState_distribution (c : CityModel) :
    c.saveState.distribution = c.distribution := by
  rw [saveState_eq]
  split <;> rfl

lemma saveState_gridSize (c : CityModel) :
    c.saveState.gridSize = c.gridSize := by
  rw [saveState_eq]
  split <;> rfl

lemma dynSaveState_eq (c : DynCity) :
    c.saveState =
      if 50 < (c.history.take (c.historyIndex + 1).toNat ++
          [(⟨c.grid, c.distribution, c.stats⟩ : DynSnapshot)]).length then
        { c with
            history := (c.history.take (c.historyIndex + 1).toNat ++
              [(⟨c.grid, c.distribution, c.stats⟩ : DynSnapshot)]).tail
            historyIndex :=
              ((c.history.take (c.historyIndex + 1).toNat ++
                [(⟨c.grid, c.distribution, c.stats⟩ : DynSnapshot)]).length : Int)
                - 1 - 1 }
      else
        { c with
            history := c.history.take (c.historyIndex + 1).toNat ++
              [(⟨c.grid, c.distribution, c.stats⟩ : DynSnapshot)]
            historyIndex :=
              ((c.history.take (c.historyIndex + 1).toNat ++
                [(⟨c.grid, c.distribution, c.stats⟩ : DynSnapshot)]).length : Int)
                - 1 } := rfl

lemma recalcStats_fresh (z : CityModel) : StatsFresh z.recalcStats := rfl

lemma saveState_fresh (z : CityModel) (h : StatsFresh z) :
    StatsFresh z.saveState := by
  unfold StatsFresh
  rw [saveState_stats, saveState_distribution, saveState_gridSize]
  exact h

lemma dynSaveState_frame (c : DynCity) :
    c.saveState.stats = c.stats ∧ c.saveState.distribution = c.distribution ∧
      c.saveState.gridSize = c.gridSize := by
  rw [dynSaveState_eq]
  split <;> exact ⟨rfl, rfl, rfl⟩

/-- C5 (amended): after every mutator that recomputes statistics returns —
a successful setZone, clear, a terminating generateLayout, and a successful
importData — the stats record equals calculateStats applied to the current
distribution.  At construction, however, the City carries seeded literal
statistics that differ from calculateStats of the empty distribution
(airQuality 70 versus 60), so the claimed invariant does not cover the
freshly constructed state (nor snapshots of it restored by undo). -/
theorem C5_stats_recomputed (c : CityModel) (cd : DynCity) (x y : Int)
    (t : String) (p : LayoutParams) (rnd : Nat → Rat) (c' : CityModel)
    (d : ImportPayload) :
    (c.setZone x y t ≠ c → StatsFresh (c.setZone x y t)) ∧
    StatsFresh c.clear ∧
    (c.generateLayout p rnd = some c' → StatsFresh c') ∧
    ((CityModel.importData (some d) cd).1 = true →
      DynStatsFresh (CityModel.importData (some d) cd).2) := by
  refine ⟨?_, ?_, ?_, ?_⟩
  · intro hne
    by_cases hbnd : x < 0 ∨ (c.gridSize : Int) ≤ x ∨ y < 0 ∨ (c.gridSize : Int) ≤ y
    · exact absurd (setZone_eq_of_oob x y t c hbnd) hne
    · cases hp : parseZoneType t with
      | none => exact absurd (setZone_eq_of_parse_none x y t c hp) hne
      | some zt =>
        by_cases hsame : (cellAt c.grid x.toNat y.toNat).type = zt
        · exact absurd (setZone_eq_of_same x y t c zt hp hsame) hne
        · rw [setZone_success_eq x y t c zt hp hbnd hsame]
          rfl
  · rfl
  · intro hgen
    unfold CityModel.generateLayout at hgen
    split at hgen
    · exact absurd hgen (by simp)
    · simp only [Option.some_inj] at hgen
      subst hgen
      exact saveState_fresh _ (recalcStats_fresh _)
  · intro hok
    unfold CityModel.importData at hok ⊢
    dsimp only at hok ⊢
    cases hgs : importGridSize d (importStage1 d cd) with
    | none =>
      try rw [hgs] at hok
      try dsimp only at hok
      exact absurd hok (by simp)
    | some gs =>
      try rw [hgs] at hok
      try rw [hgs]
      try dsimp only at hok ⊢
      cases hd : d.distribution with
      | none =>
        try rw [hd] at hok
        try dsimp only at hok
        exact absurd hok (by simp)
      | some dist =>
        try rw [hd] at hok
        try rw [hd]
        try dsimp only at hok ⊢
        refine ⟨dist, ?_, ?_⟩
        · rw [(dynSaveState_frame _).2.1]
          show d.distribution = some dist
          exact hd
        · rw [(dynSaveState_frame _).1, (dynSaveState_frame _).2.2]
          rfl

lemma generateLayout_isSome (p : LayoutParams) (rnd : Nat → Rat)
    (c : CityModel) (h : ¬ c.gridSize / 8 = 0) :
    (c.generateLayout p rnd).isSome := by
  unfold CityModel.generateLayout
  rw [if_neg h]
  rfl


/-- Witness for C5 at concrete inputs: one instance of each
statistics-recomputing mutator. -/
theorem C5_stats_recomputed_witness :
    StatsFresh ((CityModel.create (.inl 4)).setZone 0 0 "residential") ∧
    StatsFresh (CityModel.create (.inl 4)).clear ∧
    StatsFresh (((CityModel.create (.inl 8)).generateLayout {}
        (fun _ => 1)).get
      (generateLayout_isSome {} (fun _ => 1) (CityModel.create (.inl 8))
        (by with_unfolding_all decide))) ∧
    DynStatsFresh (CityModel.importData
      (some ⟨none, some "X", some "medium", some 4, some (freshGrid 4 0),
        some (emptyDistribution 4)⟩)
      (CityModel.create (.inl 4)).toDyn).2 := by
  refine ⟨?_, ?_, ?_, ?_⟩
  · exact (C5_stats_recomputed (CityModel.create (.inl 4))
      (CityModel.create (.inl 4)).toDyn 0 0 "residential" {} (fun _ => 1)
      (CityModel.create (.inl 4))
      ⟨none, none, none, none, none, none⟩).1
      (fun h => absurd (congrArg CityModel.nextId h)
        (by with_unfolding_all decide))
  · exact (C5_stats_recomputed (CityModel.create (.inl 4))
      (CityModel.create (.inl 4)).toDyn 0 0 "residential" {} (fun _ => 1)
      (CityModel.create (.inl 4))
      ⟨none, none, none, none, none, none⟩).2.1
  · exact (C5_stats_recomputed (CityModel.create (.inl 8))
      (CityModel.create (.inl 8)).toDyn 0 0 "residential" {} (fun _ => 1)
      (((CityModel.create (.inl 8)).generateLayout {} (fun _ => 1)).get
        (generateLayout_isSome {} (fun _ => 1) (CityModel.create (.inl 8))
          (by with_unfolding_all decide)))
      ⟨none, none, none, none, none, none⟩).2.2.1
      (Option.some_get _).symm
  · exact (C5_stats_recomputed (CityModel.create (.inl 4))
      (CityModel.create (.inl 4)).toDyn 0 0 "residential" {} (fun _ => 1)
      (CityModel.create (.inl 4))
      ⟨none, some "X", some "medium", some 4, some (freshGrid 4 0),
        some (emptyDistribution 4)⟩).2.2.2
      (by with_unfolding_all decide)

/-- C2 counterexample: importData is not all-or-nothing.  A payload whose
distribution is absent makes the import fail (calculateStats throws on the
missing distribution), yet the name assigned before the throw keeps its
imported value. -/
theorem C2_import_counterexample :
    (CityModel.importData
        (some ⟨none, some "X", some "medium", some 4, some (freshGrid 4 0),
          none⟩) (CityModel.create (.inl 4)).toDyn).1 = false ∧
    (CityModel.importData
        (some ⟨none, some "X", some "medium", some 4, some (freshGrid 4 0),
          none⟩) (CityModel.create (.inl 4)).toDyn).2.name = "X" ∧
    (CityModel.create (.inl 4)).toDyn.name = "New City" := by
  refine ⟨?_, ?_, ?_⟩ <;> with_unfolding_all decide

lemma dynSaveState_name (c : DynCity) : c.saveState.name = c.name := by
  rw [dynSaveState_eq]
  split <;> rfl

lemma dynSaveState_size (c : DynCity) : c.saveState.size = c.size := by
  rw [dynSaveState_eq]
  split <;> rfl

/-- C2 (amended): importData applies the payload's fields in source order
inside a try block, so a failure keeps every assignment already made
rather than rolling back.  A non-object payload fails before any
assignment and leaves the City unchanged.  Otherwise id, name (default
"Imported City") and size (default "medium") are always assigned; if the
grid-size fallback lookup throws, the call returns false with exactly
those three fields (and the id counter) updated; if the payload carried no
distribution, the call returns false with gridSize, grid and distribution
also already overwritten; and with a distribution present the call
succeeds, recomputes the statistics and pushes a snapshot. -/
theorem C2_import_not_atomic (d : ImportPayload) (cd : DynCity) :
    CityModel.importData none cd = (false, cd) ∧
    ((CityModel.importData (some d) cd).1 = false →
      (CityModel.importData (some d) cd).2.name = strOr d.name "Imported City" ∧
      (CityModel.importData (some d) cd).2.size = strOr d.size "medium" ∧
      (importGridSize d (importStage1 d cd) = none →
        (CityModel.importData (some d) cd).2 = importStage1 d cd) ∧
      (∀ gs, importGridSize d (importStage1 d cd) = some gs →
        d.distribution = none ∧
        (CityModel.importData (some d) cd).2 =
          importStage2 d gs (importStage1 d cd))) ∧
    ((CityModel.importData (some d) cd).1 = true →
      (CityModel.importData (some d) cd).2.name = strOr d.name "Imported City" ∧
      (CityModel.importData (some d) cd).2.size = strOr d.size "medium" ∧
      ∃ gs dist, importGridSize d (importStage1 d cd) = some gs ∧
        d.distribution = some dist ∧
        (CityModel.importData (some d) cd).2 =
          ({ importStage2 d gs (importStage1 d cd) with
              stats := calculateStats gs dist }).saveState) := by
  refine ⟨rfl, ?_, ?_⟩
  · intro hfail
    unfold CityModel.importData at hfail ⊢
    dsimp only at hfail ⊢
    cases hgs : importGridSize d (importStage1 d cd) with
    | none =>
      try rw [hgs] at hfail
      try rw [hgs]
      try dsimp only at hfail ⊢
      refine ⟨rfl, rfl, fun _ => rfl, ?_⟩
      intro gs hgs2
      try rw [hgs] at hgs2
      try simp at hgs2
    | some gs =>
      try rw [hgs] at hfail
      try rw [hgs]
      try dsimp only at hfail ⊢
      cases hd : d.distribution with
      | none =>
        try rw [hd] at hfail
        try rw [hd]
        try dsimp only at hfail ⊢
        refine ⟨rfl, rfl, ?_, ?_⟩
        · intro hcon
          try rw [hgs] at hcon
          simp at hcon
        · intro gs2 hgs2
          try rw [hgs] at hgs2
          cases hgs2
          exact ⟨rfl, rfl⟩
      | some dist =>
        try rw [hd] at hfail
        try dsimp only at hfail
        exact Bool.noConfusion hfail
  · intro hok
    unfold CityModel.importData at hok ⊢
    dsimp only at hok ⊢
    cases hgs : importGridSize d (importStage1 d cd) with
    | none =>
      try rw [hgs] at hok
      try dsimp only at hok
      exact Bool.noConfusion hok
    | some gs =>
      try rw [hgs] at hok
      try rw [hgs]
      try dsimp only at hok ⊢
      cases hd : d.distribution with
      | none =>
        try rw [hd] at hok
        try dsimp only at hok
        exact Bool.noConfusion hok
      | some dist =>
        try rw [hd] at hok
        try rw [hd]
        try dsimp only at hok ⊢
        refine ⟨?_, ?_, gs, dist, rfl, rfl, rfl⟩
        · rw [dynSaveState_name]
          rfl
        · rw [dynSaveState_size]
          rfl

/-- Witness for C2 at concrete inputs: a failing and a succeeding import. -/
theorem C2_import_not_atomic_witness :
    CityModel.importData none (CityModel.create (.inl 4)).toDyn =
      (false, (CityModel.create (.inl 4)).toDyn) ∧
    (CityModel.importData
        (some ⟨none, some "X", some "medium", some 4, some (freshGrid 4 0),
          none⟩) (CityModel.create (.inl 4)).toDyn).2.name = "X" ∧
    (CityModel.importData
        (some ⟨none, none, none, some 4, some (freshGrid 4 0),
          some (emptyDistribution 4)⟩)
        (CityModel.create (.inl 4)).toDyn).2.name = "Imported City" ∧
    (CityModel.importData
        (some ⟨none, none, none, some 4, some (freshGrid 4 0),
          some (emptyDistribution 4)⟩)
        (CityModel.create (.inl 4)).toDyn).2.size = "medium" := by
  refine ⟨(C2_import_not_atomic ⟨none, none, none, none, none, none⟩
      (CityModel.create (.inl 4)).toDyn).1, ?_, ?_, ?_⟩
  · exact ((C2_import_not_atomic
      ⟨none, some "X", some "medium", some 4, some (freshGrid 4 0), none⟩
      (CityModel.create (.inl 4)).toDyn).2.1
      (by with_unfolding_all decide)).1
  · exact ((C2_import_not_atomic
      ⟨none, none, none, some 4, some (freshGrid 4 0),
        some (emptyDistribution 4)⟩
      (CityModel.create (.inl 4)).toDyn).2.2
      (by with_unfolding_all decide)).1
  · exact ((C2_import_not_atomic
      ⟨none, none, none, some 4, some (freshGrid 4 0),
        some (emptyDistribution 4)⟩
      (CityModel.create (.inl 4)).toDyn).2.2
      (by with_unfolding_all decide)).2.1

lemma setZoneH_success_eq (x y : Int) (t : String) (h : Heap) (c : HeapCity)
    (zt : ZoneType) (hp : parseZoneType t = some zt)
    (hbnd : ¬(x < 0 ∨ (c.gridSize : Int) ≤ x ∨ y < 0 ∨ (c.gridSize : Int) ≤ y))
    (hne : (cellAt (h.grid c.gridRef) x.toNat y.toNat).type ≠ zt) :
    HeapCity.setZone x y t h c =
      ({ grids := h.grids.set c.gridRef
            (setCell (h.grid c.gridRef) x.toNat y.toNat ⟨zt, c.nextId⟩)
         dists := h.dists.set c.distRef
            (distAfterSet (h.dist c.distRef)
              (cellAt (h.grid c.gridRef) x.toNat y.toNat).type zt)
         statsArr := h.statsArr.set c.statsRef
            (calculateStats c.gridSize
              (distAfterSet (h.dist c.distRef)
                (cellAt (h.grid c.gridRef) x.toNat y.toNat).type zt)) },
       { c with nextId := c.nextId + 1 }) := by
  unfold HeapCity.setZone
  rw [if_neg hbnd, hp]
  simp only
  rw [if_neg hne]
  rfl

/-- C10: the object returned by exportData holds the very references the
City holds for grid, stats and distribution (no copies are made), so after
a subsequent successful setZone the grid, stats and distribution reachable
from the previously returned export object are the City's mutated ones, not
the values they had at export time. -/
theorem C10_export_aliasing (h : Heap) (c : HeapCity) (now : String)
    (x y : Int) (t : String) (zt : ZoneType)
    (hp : parseZoneType t = some zt)
    (hbnd : ¬(x < 0 ∨ (c.gridSize : Int) ≤ x ∨ y < 0 ∨ (c.gridSize : Int) ≤ y))
    (hne : (cellAt (h.grid c.gridRef) x.toNat y.toNat).type ≠ zt)
    (hdims : GridDims c.gridSize (h.grid c.gridRef))
    (hgr : c.gridRef < h.grids.length)
    (hsr : c.statsRef < h.statsArr.length)
    (hdr : c.distRef < h.dists.length) :
    (c.exportData now).gridRef = c.gridRef ∧
    (c.exportData now).statsRef = c.statsRef ∧
    (c.exportData now).distRef = c.distRef ∧
    ((HeapCity.setZone x y t h c).2).gridRef = (c.exportData now).gridRef ∧
    (HeapCity.setZone x y t h c).1.grid (c.exportData now).gridRef =
      setCell (h.grid c.gridRef) x.toNat y.toNat ⟨zt, c.nextId⟩ ∧
    (HeapCity.setZone x y t h c).1.grid (c.exportData now).gridRef ≠
      h.grid (c.exportData now).gridRef ∧
    (HeapCity.setZone x y t h c).1.dist (c.exportData now).distRef =
      distAfterSet (h.dist c.distRef)
        (cellAt (h.grid c.gridRef) x.toNat y.toNat).type zt ∧
    (HeapCity.setZone x y t h c).1.stats (c.exportData now).statsRef =
      calculateStats c.gridSize
        (distAfterSet (h.dist c.distRef)
          (cellAt (h.grid c.gridRef) x.toNat y.toNat).type zt) := by
  push_neg at hbnd
  obtain ⟨hx0, hxg, hy0, hyg⟩ := hbnd
  have hbnd' : ¬(x < 0 ∨ (c.gridSize : Int) ≤ x ∨ y < 0 ∨ (c.gridSize : Int) ≤ y) := by
    push_neg
    exact ⟨hx0, hxg, hy0, hyg⟩
  rw [setZoneH_success_eq x y t h c zt hp hbnd' hne]
  have hyl : y.toNat < (h.grid c.gridRef).length := by
    have := hdims.1
    omega
  have hxl : x.toNat < ((h.grid c.gridRef).getD y.toNat []).length := by
    rw [row_len_of_dims c.gridSize _ hdims y.toNat (by omega)]
    omega
  have hgridread : (h.grids.set c.gridRef
      (setCell (h.grid c.gridRef) x.toNat y.toNat ⟨zt, c.nextId⟩)).getD
        c.gridRef [] =
      setCell (h.grid c.gridRef) x.toNat y.toNat ⟨zt, c.nextId⟩ := by
    rw [List.getD_eq_getElem _ _ (by simpa using hgr), List.getElem_set_self]
  have hdistread : (h.dists.set c.distRef
      (distAfterSet (h.dist c.distRef)
        (cellAt (h.grid c.gridRef) x.toNat y.toNat).type zt)).getD
        c.distRef (emptyDistribution 0) =
      distAfterSet (h.dist c.distRef)
        (cellAt (h.grid c.gridRef) x.toNat y.toNat).type zt := by
    rw [List.getD_eq_getElem _ _ (by simpa using hdr), List.getElem_set_self]
  have hstatsread : (h.statsArr.set c.statsRef
      (calculateStats c.gridSize
        (distAfterSet (h.dist c.distRef)
          (cellAt (h.grid c.gridRef) x.toNat y.toNat).type zt))).getD
        c.statsRef initialStats =
      calculateStats c.gridSize
        (distAfterSet (h.dist c.distRef)
          (cellAt (h.grid c.gridRef) x.toNat y.toNat).type zt) := by
    rw [List.getD_eq_getElem _ _ (by simpa using hsr), List.getElem_set_self]
  refine ⟨rfl, rfl, rfl, rfl, ?_, ?_, ?_, ?_⟩
  · exact hgridread
  · show (h.grids.set c.gridRef
        (setCell (h.grid c.gridRef) x.toNat y.toNat ⟨zt, c.nextId⟩)).getD
          c.gridRef [] ≠ h.grid c.gridRef
    rw [hgridread]
    intro heq
    apply hne
    have := congrArg (fun g => (cellAt g x.toNat y.toNat).type) heq
    simp only at this
    rw [cellAt_setCell_same _ _ _ _ hyl hxl] at this
    exact this.symm
  · exact hdistread
  · exact hstatsread

/-- Witness for C10 at a concrete heap and city. -/
theorem C10_export_aliasing_witness :
    (HeapCity.setZone 0 0 "residential"
        ⟨[freshGrid 2 1], [emptyDistribution 2], [initialStats]⟩
        ⟨7, "New City", "small", 2, 0, 0, 0, 5⟩).1.grid
      ((HeapCity.exportData "now"
        ⟨7, "New City", "small", 2, 0, 0, 0, 5⟩).gridRef) ≠
    Heap.grid ⟨[freshGrid 2 1], [emptyDistribution 2], [initialStats]⟩
      ((HeapCity.exportData "now"
        ⟨7, "New City", "small", 2, 0, 0, 0, 5⟩).gridRef) :=
  (C10_export_aliasing ⟨[freshGrid 2 1], [emptyDistribution 2], [initialStats]⟩
    ⟨7, "New City", "small", 2, 0, 0, 0, 5⟩ "now" 0 0 "residential"
    ZoneType.residential rfl (by with_unfolding_all decide)
    (by with_unfolding_all decide) (freshGrid_dims 2 1)
    (by with_unfolding_all decide) (by with_unfolding_all decide)
    (by with_unfolding_all decide)).2.2.2.2.2.1

/-- No cell of the grid is a transit cell. -/
def NoTransitGrid (g : Nat) (grid : GridT) : Prop :=
  ∀ u v, u < g → v < g → (cellAt grid u v).type ≠ ZoneType.transit

lemma setZone_dims (x y : Int) (t : String) (c : CityModel)
    (hd : GridDims c.gridSize c.grid) :
    GridDims c.gridSize (c.setZone x y t).grid := by
  unfold CityModel.setZone
  split
  · exact hd
  · cases parseZoneType t with
    | none => exact hd
    | some zt =>
      simp only
      split
      · exact hd
      · exact setCell_dims _ _ _ _ _ hd

lemma setZone_cellAt_ne (x y : Int) (t : String) (c : CityModel) (u v : Nat)
    (hne : u ≠ x.toNat ∨ v ≠ y.toNat) :
    cellAt (c.setZone x y t).grid u v = cellAt c.grid u v := by
  unfold CityModel.setZone
  split
  · rfl
  · cases parseZoneType t with
    | none => rfl
    | some zt =>
      simp only
      split
      · rfl
      · exact cellAt_setCell_ne _ _ _ _ _ _ hne

lemma setZone_cellType_same (x y : Int) (t : String) (c : CityModel)
    (zt : ZoneType) (hp : parseZoneType t = some zt)
    (hbnd : ¬(x < 0 ∨ (c.gridSize : Int) ≤ x ∨ y < 0 ∨ (c.gridSize : Int) ≤ y))
    (hd : GridDims c.gridSize c.grid) :
    (cellAt (c.setZone x y t).grid x.toNat y.toNat).type = zt := by
  push_neg at hbnd
  obtain ⟨hx0, hxg, hy0, hyg⟩ := hbnd
  have hbnd' : ¬(x < 0 ∨ (c.gridSize : Int) ≤ x ∨ y < 0 ∨ (c.gridSize : Int) ≤ y) := by
    push_neg
    exact ⟨hx0, hxg, hy0, hyg⟩
  have hyl : y.toNat < c.grid.length := by
    have := hd.1
    omega
  have hxl : x.toNat < (c.grid.getD y.toNat []).length := by
    rw [row_len_of_dims c.gridSize c.grid hd y.toNat (by omega)]
    omega
  by_cases hsame : (cellAt c.grid x.toNat y.toNat).type = zt
  · rw [setZone_eq_of_same x y t c zt hp hsame]
    exact hsame
  · rw [setZone_success_eq x y t c zt hp hbnd' hsame]
    show (cellAt (setCell c.grid x.toNat y.toNat ⟨zt, c.nextId⟩)
      x.toNat y.toNat).type = zt
    rw [cellAt_setCell_same _ _ _ _ hyl hxl]

lemma setZone_noTransit (x y : Int) (t : String) (c : CityModel)
    (hd : GridDims c.gridSize c.grid)
    (hzt : ∀ zt, parseZoneType t = some zt → zt ≠ ZoneType.transit)
    (h : NoTransitGrid c.gridSize c.grid) :
    NoTransitGrid c.gridSize (c.setZone x y t).grid := by
  intro u v hu hv
  by_cases hcell : u = x.toNat ∧ v = y.toNat
  · obtain ⟨rfl, rfl⟩ := hcell
    by_cases hbnd : x < 0 ∨ (c.gridSize : Int) ≤ x ∨ y < 0 ∨ (c.gridSize : Int) ≤ y
    · rw [setZone_eq_of_oob x y t c hbnd]
      exact h _ _ hu hv
    · cases hp : parseZoneType t with
      | none =>
        rw [setZone_eq_of_parse_none x y t c hp]
        exact h _ _ hu hv
      | some zt =>
        rw [setZone_cellType_same x y t c zt hp hbnd hd]
        exact hzt zt hp
  · rw [setZone_cellAt_ne x y t c u v (by omega)]
    exact h _ _ hu hv

lemma parse_zoneKey (zt : ZoneType) : parseZoneType (zoneKey zt) = some zt := by
  cases zt <;> rfl

lemma ringChoice_ne_transit (p : LayoutParams) (htr : p.transitRatio = 0)
    (center : Nat) (d : Int) (r : Rat) :
    ringChoice p center d r ≠ some ZoneType.transit := by
  unfold ringChoice
  split
  · split
    · simp
    · split
      · simp
      · simp
  · split
    · split
      · simp
      · split
        · simp
        · simp
    · split
      · split
        · simp
        · split
          · simp
          · split
            · simp
            · simp
      · split
        · simp
        · split
          next h1 h2 =>
            rw [htr] at h2
            exfalso
            apply h1
            calc r < p.commercialRatio * 2 + 0 * 2 := h2
              _ = p.commercialRatio * 2 := by ring
          · split
            · simp
            · simp

/-- Pre-hub invariant of the layout pipeline: fixed grid size, square
grid, and no transit cell anywhere. -/
def PreHub (g : Nat) (c : CityModel) : Prop :=
  c.gridSize = g ∧ GridDims g c.grid ∧ NoTransitGrid g c.grid

lemma foldl_pres {α : Type} {P : CityModel → Prop} (f : CityModel → α → CityModel)
    (hf : ∀ c a, P c → P (f c a)) :
    ∀ (l : List α) (c : CityModel), P c → P (List.foldl f c l) := by
  intro l
  induction l with
  | nil => intro c hc; exact hc
  | cons a r ih => intro c hc; exact ih _ (hf c a hc)

lemma foldl_pair_pres {α : Type} {P : CityModel → Prop}
    (f : CityModel × Nat → α → CityModel × Nat)
    (hf : ∀ st a, P st.1 → P (f st a).1) :
    ∀ (l : List α) (st : CityModel × Nat), P st.1 → P (List.foldl f st l).1 := by
  intro l
  induction l with
  | nil => intro st hst; exact hst
  | cons a r ih => intro st hst; exact ih _ (hf st a hst)

lemma setZone_preHub (g : Nat) (x y : Int) (t : String) (c : CityModel)
    (hzt : ∀ zt, parseZoneType t = some zt → zt ≠ ZoneType.transit)
    (h : PreHub g c) : PreHub g (c.setZone x y t) := by
  obtain ⟨hgs, hd, hnt⟩ := h
  have hd' : GridDims c.gridSize c.grid := by rw [hgs]; exact hd
  have hnt' : NoTransitGrid c.gridSize c.grid := by rw [hgs]; exact hnt
  refine ⟨?_, ?_, ?_⟩
  · rw [(setZone_frame x y t c).2.2]
    exact hgs
  · have h1 := setZone_dims x y t c hd'
    rw [hgs] at h1
    exact h1
  · have h1 := setZone_noTransit x y t c hd' hzt hnt'
    rw [hgs] at h1
    exact h1

lemma road_ne_transit :
    ∀ zt, parseZoneType "road" = some zt → zt ≠ ZoneType.transit := by
  intro zt hp
  cases hp
  simp

lemma cellAt_freshGrid (g n x y : Nat) (hx : x < g) (hy : y < g) :
    cellAt (freshGrid g n) x y = ⟨ZoneType.empty, n + y * g + x⟩ := by
  unfold cellAt freshGrid
  have hy2 : y < ((List.range g).map (fun yy =>
      (List.range g).map (fun xx => (⟨ZoneType.empty, n + yy * g + xx⟩ : Zone)))).length := by
    simpa using hy
  rw [List.getD_eq_getElem _ _ hy2, List.getElem_map, List.getElem_range]
  have hx2 : x < ((List.range g).map (fun xx =>
      (⟨ZoneType.empty, n + y * g + xx⟩ : Zone))).length := by
    simpa using hx
  rw [List.getD_eq_getElem _ _ hx2, List.getElem_map, List.getElem_range]

lemma clear_preHub (g : Nat) (c : CityModel) (hgs : c.gridSize = g) :
    PreHub g c.clear := by
  refine ⟨hgs, by rw [← hgs]; exact freshGrid_dims _ _, ?_⟩
  intro u v hu hv
  show (cellAt (freshGrid c.gridSize c.nextId) u v).type ≠ ZoneType.transit
  rw [cellAt_freshGrid _ _ _ _ (by omega) (by omega)]
  simp

lemma generateRoadNetwork_preHub (g : Nat) (c : CityModel) (h : PreHub g c) :
    PreHub g c.generateRoadNetwork := by
  unfold CityModel.generateRoadNetwork
  refine foldl_pres _ (fun c1 i hc1 => ?_) _ _
    (foldl_pres _ (fun c1 xx hc1 => ?_) _ _
      (foldl_pres _ (fun c1 yy hc1 => ?_) _ _ h))
  · exact foldl_pres _ (fun c2 j hc2 => by
      split
      · exact setZone_preHub g _ _ _ _ road_ne_transit hc2
      · exact hc2) _ _ hc1
  · exact foldl_pres _
      (fun c2 yy hc2 => setZone_preHub g _ _ _ _ road_ne_transit hc2) _ _ hc1
  · exact foldl_pres _
      (fun c2 xx hc2 => setZone_preHub g _ _ _ _ road_ne_transit hc2) _ _ hc1

lemma ringStep_preHub (g : Nat) (p : LayoutParams) (htr : p.transitRatio = 0)
    (rnd : Nat → Rat) (center : Nat) (st : CityModel × Nat) (x y : Nat)
    (h : PreHub g st.1) : PreHub g (ringStep p rnd center st x y).1 := by
  unfold ringStep
  split
  · exact h
  · cases hrc : ringChoice p center
        (((x : Int) - (center : Int)) ^ 2 + ((y : Int) - (center : Int)) ^ 2)
        (rnd st.2) with
    | none => exact h
    | some zt =>
      apply setZone_preHub g _ _ _ _ ?_ h
      intro zt' hp'
      rw [parse_zoneKey] at hp'
      cases hp'
      intro hcon
      subst hcon
      exact ringChoice_ne_transit p htr center _ _ hrc

lemma ringPhase_preHub (g : Nat) (p : LayoutParams) (htr : p.transitRatio = 0)
    (rnd : Nat → Rat) (c : CityModel) (h : PreHub g c) :
    PreHub g (ringPhase p rnd c).1 := by
  unfold ringPhase
  exact foldl_pair_pres _
    (fun st y hst => foldl_pair_pres _
      (fun st2 x hst2 => ringStep_preHub g p htr rnd _ st2 x _ hst2) _ _ hst)
    _ _ h

/-- The hub anchor coordinates: positive multiples of `floor(gridSize/4)`
below the grid size — the loop positions of `addTransitHubs`. -/
def hubAnchors (g : Nat) : List Nat := spacedPositions g (g / 4)

/-- The grid coordinates covered by the hub clusters in one dimension:
anchor positions and their successors, within range. -/
def coveredX (g : Nat) : List Nat :=
  (List.range g).filter (fun u => (hubAnchors g).any (fun a => u = a || u = a + 1))

/-- One 2x2 hub cluster write of `addTransitHubs` at anchor `(x, y)`. -/
def hubWrite (c : CityModel) (x y : Nat) : CityModel :=
  (((c.setZone (x : Int) (y : Int) "transit").setZone
      ((x + 1 : Nat) : Int) (y : Int) "transit").setZone
      (x : Int) ((y + 1 : Nat) : Int) "transit").setZone
      ((x + 1 : Nat) : Int) ((y + 1 : Nat) : Int) "transit"

lemma foldl_nested_pairs {α β : Type} (f : CityModel → α → β → CityModel)
    (xs : List α) (ys : List β) :
    ∀ c, ys.foldl (fun acc y => xs.foldl (fun acc2 x => f acc2 x y) acc) c =
      (ys.bind (fun y => xs.map (fun x => (x, y)))).foldl
        (fun acc q => f acc q.1 q.2) c := by
  induction ys with
  | nil => intro c; rfl
  | cons y ys ih =>
    intro c
    simp only [List.flatMap_cons, List.foldl_append, List.foldl_map]
    exact ih _

lemma addTransitHubs_eq_pairs (c : CityModel) :
    c.addTransitHubs =
      ((hubAnchors c.gridSize).bind (fun y =>
          (hubAnchors c.gridSize).map (fun x => (x, y)))).foldl
        (fun acc q => hubWrite acc q.1 q.2) c := by
  unfold CityModel.addTransitHubs hubWrite hubAnchors
  exact @foldl_nested_pairs Nat Nat
    (fun acc x y =>
      (((acc.setZone (x : Int) (y : Int) "transit").setZone
          ((x + 1 : Nat) : Int) (y : Int) "transit").setZone
          (x : Int) ((y + 1 : Nat) : Int) "transit").setZone
          ((x + 1 : Nat) : Int) ((y + 1 : Nat) : Int) "transit")
    (spacedPositions c.gridSize (c.gridSize / 4))
    (spacedPositions c.gridSize (c.gridSize / 4)) c

lemma setZone_frames_gridSize (x y : Int) (t : String) (c : CityModel) :
    (c.setZone x y t).gridSize = c.gridSize := (setZone_frame x y t c).2.2

lemma setZone_cellType_same_nat (xn yn : Nat) (t : String) (c : CityModel)
    (zt : ZoneType) (hp : parseZoneType t = some zt)
    (hx : xn < c.gridSize) (hy : yn < c.gridSize)
    (hd : GridDims c.gridSize c.grid) :
    (cellAt (c.setZone (xn : Int) (yn : Int) t).grid xn yn).type = zt := by
  have h := setZone_cellType_same (xn : Int) (yn : Int) t c zt hp
    (by push_neg; refine ⟨by omega, by omega, by omega, by omega⟩) hd
  have h1 : ((xn : Int)).toNat = xn := by omega
  have h2 : ((yn : Int)).toNat = yn := by omega
  rw [h1, h2] at h
  exact h

lemma hubWrite_cellType (g : Nat) (c : CityModel) (hgs : c.gridSize = g)
    (hd : GridDims g c.grid) (a b u v : Nat) (hu : u < g) (hv : v < g) :
    ((cellAt (hubWrite c a b).grid u v).type = ZoneType.transit ↔
      ((u = a ∨ u = a + 1) ∧ (v = b ∨ v = b + 1)) ∨
        (cellAt c.grid u v).type = ZoneType.transit) := by
  have hd0 : GridDims c.gridSize c.grid := by rw [hgs]; exact hd
  have hgs1 := setZone_frames_gridSize (a : Int) (b : Int) "transit" c
  have hd1 := setZone_dims (a : Int) (b : Int) "transit" c hd0
  set c1 := c.setZone (a : Int) (b : Int) "transit" with hc1
  have hgs2 := setZone_frames_gridSize ((a + 1 : Nat) : Int) (b : Int) "transit" c1
  have hd2 : GridDims c1.gridSize c1.grid := by rw [hgs1]; exact hd1
  have hd2' := setZone_dims ((a + 1 : Nat) : Int) (b : Int) "transit" c1 hd2
  set c2 := c1.setZone ((a + 1 : Nat) : Int) (b : Int) "transit" with hc2
  have hgs3 := setZone_frames_gridSize (a : Int) ((b + 1 : Nat) : Int) "transit" c2
  have hd3 : GridDims c2.gridSize c2.grid := by rw [hgs2]; exact hd2'
  have hd3' := setZone_dims (a : Int) ((b + 1 : Nat) : Int) "transit" c2 hd3
  set c3 := c2.setZone (a : Int) ((b + 1 : Nat) : Int) "transit" with hc3
  have hd4 : GridDims c3.gridSize c3.grid := by rw [hgs3]; exact hd3'
  have hgsc1 : c1.gridSize = g := by rw [hgs1, hgs]
  have hgsc2 : c2.gridSize = g := by rw [hgs2, hgsc1]
  have hgsc3 : c3.gridSize = g := by rw [hgs3, hgsc2]
  show (cellAt (c3.setZone ((a + 1 : Nat) : Int) ((b + 1 : Nat) : Int)
      "transit").grid u v).type = ZoneType.transit ↔ _
  by_cases hcov : (u = a ∨ u = a + 1) ∧ (v = b ∨ v = b + 1)
  · have hgoal : (cellAt (c3.setZone ((a + 1 : Nat) : Int) ((b + 1 : Nat) : Int)
        "transit").grid u v).type = ZoneType.transit := by
      obtain ⟨hcu, hcv⟩ := hcov
      rcases hcu with rfl | rfl <;> rcases hcv with rfl | rfl
      · rw [setZone_cellAt_ne _ _ _ _ _ _ (by omega)]
        rw [hc3, setZone_cellAt_ne _ _ _ _ _ _ (by omega)]
        rw [hc2, setZone_cellAt_ne _ _ _ _ _ _ (by omega)]
        rw [hc1]
        exact setZone_cellType_same_nat u v "transit" c ZoneType.transit rfl
          (by omega) (by omega) hd0
      · rw [setZone_cellAt_ne _ _ _ _ _ _ (by omega)]
        rw [hc3]
        exact setZone_cellType_same_nat u (b + 1) "transit" c2
          ZoneType.transit rfl (by omega) (by omega) hd3
      · rw [setZone_cellAt_ne _ _ _ _ _ _ (by omega)]
        rw [hc3, setZone_cellAt_ne _ _ _ _ _ _ (by omega)]
        rw [hc2]
        exact setZone_cellType_same_nat (a + 1) v "transit" c1
          ZoneType.transit rfl (by omega) (by omega) hd2
      · exact setZone_cellType_same_nat (a + 1) (b + 1) "transit" c3
          ZoneType.transit rfl (by omega) (by omega) hd4
    rw [hgoal]
    simp [hcov]
  · push_neg at hcov
    rw [setZone_cellAt_ne _ _ _ _ _ _ (by omega)]
    rw [hc3, setZone_cellAt_ne _ _ _ _ _ _ (by omega)]
    rw [hc2, setZone_cellAt_ne _ _ _ _ _ _ (by omega)]
    rw [hc1, setZone_cellAt_ne _ _ _ _ _ _ (by omega)]
    constructor
    · exact fun h => Or.inr h
    · intro h
      rcases h with h | h
      · obtain ⟨h1, h2⟩ := hcov h.1
        rcases h.2 with hv2 | hv2
        · exact absurd hv2 h1
        · exact absurd hv2 h2
      · exact h

lemma hubWrite_gridSize (c : CityModel) (a b : Nat) :
    (hubWrite c a b).gridSize = c.gridSize := by
  unfold hubWrite
  rw [setZone_frames_gridSize, setZone_frames_gridSize,
    setZone_frames_gridSize, setZone_frames_gridSize]

lemma hubWrite_dims (g : Nat) (c : CityModel) (hgs : c.gridSize = g)
    (hd : GridDims g c.grid) : GridDims g (hubWrite c a b).grid := by
  unfold hubWrite
  have h0 : GridDims c.gridSize c.grid := by rw [hgs]; exact hd
  have h1 := setZone_dims (a : Int) (b : Int) "transit" c h0
  rw [← setZone_frames_gridSize (a : Int) (b : Int) "transit" c] at h1
  have h2 := setZone_dims ((a + 1 : Nat) : Int) (b : Int) "transit" _ h1
  rw [← setZone_frames_gridSize ((a + 1 : Nat) : Int) (b : Int) "transit"] at h2
  have h3 := setZone_dims (a : Int) ((b + 1 : Nat) : Int) "transit" _ h2
  rw [← setZone_frames_gridSize (a : Int) ((b + 1 : Nat) : Int) "transit"] at h3
  have h4 := setZone_dims ((a + 1 : Nat) : Int) ((b + 1 : Nat) : Int) "transit" _ h3
  rw [← setZone_frames_gridSize ((a + 1 : Nat) : Int) ((b + 1 : Nat) : Int) "transit"] at h4
  have hgs4 : ((((c.setZone (a : Int) (b : Int) "transit").setZone
      ((a + 1 : Nat) : Int) (b : Int) "transit").setZone
      (a : Int) ((b + 1 : Nat) : Int) "transit").setZone
      ((a + 1 : Nat) : Int) ((b + 1 : Nat) : Int) "transit").gridSize = g := by
    rw [setZone_frames_gridSize, setZone_frames_gridSize,
      setZone_frames_gridSize, setZone_frames_gridSize, hgs]
  rw [← hgs4]
  exact h4

lemma hubFold_gridSize :
    ∀ (L : List (Nat × Nat)) (c : CityModel),
      (L.foldl (fun acc q => hubWrite acc q.1 q.2) c).gridSize = c.gridSize := by
  intro L
  induction L with
  | nil => intro c; rfl
  | cons q L ih =>
    intro c
    rw [List.foldl_cons, ih, hubWrite_gridSize]

lemma hubFold_cellType (g : Nat) :
    ∀ (L : List (Nat × Nat)) (c : CityModel), c.gridSize = g →
      GridDims g c.grid →
      ∀ u v, u < g → v < g →
        ((cellAt (L.foldl (fun acc q => hubWrite acc q.1 q.2) c).grid u v).type
            = ZoneType.transit ↔
          (cellAt c.grid u v).type = ZoneType.transit ∨
            ∃ q ∈ L, (u = q.1 ∨ u = q.1 + 1) ∧ (v = q.2 ∨ v = q.2 + 1)) := by
  intro L
  induction L with
  | nil =>
    intro c hgs hd u v hu hv
    simp
  | cons q L ih =>
    intro c hgs hd u v hu hv
    rw [List.foldl_cons]
    have hgs1 : (hubWrite c q.1 q.2).gridSize = g := by
      rw [hubWrite_gridSize, hgs]
    have hd1 : GridDims g (hubWrite c q.1 q.2).grid := hubWrite_dims g c hgs hd
    rw [ih (hubWrite c q.1 q.2) hgs1 hd1 u v hu hv]
    rw [hubWrite_cellType g c hgs hd q.1 q.2 u v hu hv]
    simp only [List.mem_cons]
    constructor
    · rintro ((⟨hcl, hcr⟩ | hold) | ⟨q2, hq2, hcond⟩)
      · exact Or.inr ⟨q, Or.inl rfl, hcl, hcr⟩
      · exact Or.inl hold
      · exact Or.inr ⟨q2, Or.inr hq2, hcond⟩
    · rintro (hold | ⟨q2, hq2 | hq2, hcond⟩)
      · exact Or.inl (Or.inr hold)
      · subst hq2
        exact Or.inl (Or.inl hcond)
      · exact Or.inr ⟨q2, hq2, hcond⟩

lemma mem_coveredX_iff (g u : Nat) :
    u ∈ coveredX g ↔ u < g ∧ ∃ a ∈ hubAnchors g, u = a ∨ u = a + 1 := by
  simp [coveredX, List.mem_filter]

lemma cover_pairs_iff (g u v : Nat) (hu : u < g) (hv : v < g) :
    (∃ q ∈ (hubAnchors g).bind (fun y => (hubAnchors g).map (fun x => (x, y))),
        (u = q.1 ∨ u = q.1 + 1) ∧ (v = q.2 ∨ v = q.2 + 1)) ↔
      u ∈ coveredX g ∧ v ∈ coveredX g := by
  constructor
  · rintro ⟨q, hq, hcu, hcv⟩
    rw [List.mem_bind] at hq
    obtain ⟨b, hb, hq2⟩ := hq
    rw [List.mem_map] at hq2
    obtain ⟨a, ha, rfl⟩ := hq2
    constructor
    · rw [mem_coveredX_iff]
      exact ⟨hu, a, ha, hcu⟩
    · rw [mem_coveredX_iff]
      exact ⟨hv, b, hb, hcv⟩
  · rintro ⟨h1, h2⟩
    rw [mem_coveredX_iff] at h1 h2
    obtain ⟨-, a, ha, hua⟩ := h1
    obtain ⟨-, b, hb, hvb⟩ := h2
    refine ⟨(a, b), ?_, hua, hvb⟩
    rw [List.mem_bind]
    exact ⟨b, hb, List.mem_map.mpr ⟨a, ha, rfl⟩⟩

lemma countRow_eq_filter (t : ZoneType) :
    ∀ (row : List Zone) (P : Nat → Bool),
      (∀ x, x < row.length →
        ((row.getD x ⟨ZoneType.empty, 0⟩).type = t ↔ P x = true)) →
      countRow t row = ((List.range row.length).filter P).length := by
  intro row
  induction row with
  | nil =>
    intro P _
    simp [countRow]
  | cons z row ih =>
    intro P hchar
    have h0 : z.type = t ↔ P 0 = true := by
      simpa using hchar 0 (by simp)
    have hS : ∀ x, x < row.length →
        ((row.getD x ⟨ZoneType.empty, 0⟩).type = t ↔ P (Nat.succ x) = true) := by
      intro x hx
      simpa using hchar (x + 1) (by simpa using hx)
    have hIH := ih (fun x => P (Nat.succ x)) hS
    rw [countRow_cons, hIH]
    show _ = ((List.range (row.length + 1)).filter P).length
    rw [List.range_succ_eq_map]
    cases hp0 : P 0 with
    | true =>
      have hz : z.type = t := h0.mpr hp0
      rw [if_pos hz]
      have hlhs : (List.filter (fun x => P x.succ) (List.range row.length))
          = List.filter (P ∘ Nat.succ) (List.range row.length) := rfl
      rw [hlhs]
      rw [← List.length_map (List.filter (P ∘ Nat.succ)
        (List.range row.length)) Nat.succ]
      rw [← List.filter_map Nat.succ (List.range row.length)]
      rw [List.filter_cons]
      simp [hp0]
      omega
    | false =>
      have hz : ¬ z.type = t := fun hc => by simp [h0.mp hc] at hp0
      rw [if_neg hz]
      have hlhs : (List.filter (fun x => P x.succ) (List.range row.length))
          = List.filter (P ∘ Nat.succ) (List.range row.length) := rfl
      rw [hlhs]
      rw [← List.length_map (List.filter (P ∘ Nat.succ)
        (List.range row.length)) Nat.succ]
      rw [← List.filter_map Nat.succ (List.range row.length)]
      rw [List.filter_cons]
      simp [hp0]

lemma hubFold_dims (g : Nat) :
    ∀ (L : List (Nat × Nat)) (c : CityModel), c.gridSize = g →
      GridDims g c.grid →
      GridDims g (L.foldl (fun acc q => hubWrite acc q.1 q.2) c).grid := by
  intro L
  induction L with
  | nil => intro c _ hd; exact hd
  | cons q L ih =>
    intro c hgs hd
    rw [List.foldl_cons]
    exact ih _ (by rw [hubWrite_gridSize, hgs]) (hubWrite_dims g c hgs hd)

lemma map_getD_range {α β : Type} (f : α → β) (d : α) :
    ∀ (l : List α),
      (List.range l.length).map (fun i => f (l.getD i d)) = l.map f := by
  intro l
  induction l with
  | nil => rfl
  | cons a l ih =>
    show (List.range (l.length + 1)).map _ = _
    rw [List.range_succ_eq_map, List.map_cons, List.map_map]
    rw [List.map_cons]
    congr 1

lemma sum_map_if {α : Type} (q : α → Bool) (k : Nat) :
    ∀ (l : List α),
      (l.map (fun y => if q y = true then k else 0)).sum =
        (l.filter q).length * k := by
  intro l
  induction l with
  | nil => simp
  | cons a l ih =>
    rw [List.map_cons, List.sum_cons, ih, List.filter_cons]
    cases hq : q a with
    | true =>
      rw [if_pos rfl, if_pos rfl, List.length_cons]
      ring
    | false =>
      rw [if_neg (by simp), if_neg (by simp)]
      omega

lemma filter_mem_coveredX (g : Nat) :
    (List.range g).filter (fun u => decide (u ∈ coveredX g)) = coveredX g := by
  conv_rhs => rw [coveredX]
  apply List.filter_congr
  intro u hu
  simp only [coveredX, List.mem_filter, hu, true_and, List.mem_range]
  rw [Bool.eq_iff_iff]
  simp [List.any_eq_true]

lemma countGrid_of_cover (g : Nat) (grid : GridT) (hd : GridDims g grid)
    (hchar : ∀ u v, u < g → v < g →
      ((cellAt grid u v).type = ZoneType.transit ↔
        u ∈ coveredX g ∧ v ∈ coveredX g)) :
    countGrid ZoneType.transit grid =
      (coveredX g).length * (coveredX g).length := by
  obtain ⟨hlen, hrows⟩ := hd
  unfold countGrid
  rw [← map_getD_range (countRow ZoneType.transit) ([] : List Zone) grid]
  rw [hlen]
  have hrow : ∀ y ∈ List.range g,
      countRow ZoneType.transit (grid.getD y []) =
        (if decide (y ∈ coveredX g) = true then (coveredX g).length else 0) := by
    intro y hy
    rw [List.mem_range] at hy
    have hby : y < grid.length := by omega
    have hmem : grid.getD y [] ∈ grid := by
      rw [List.getD_eq_getElem _ _ hby]
      exact List.getElem_mem hby
    have hrl : (grid.getD y []).length = g := hrows _ hmem
    cases hyc : decide (y ∈ coveredX g) with
    | true =>
      have hyc' : y ∈ coveredX g := of_decide_eq_true hyc
      rw [if_pos rfl]
      have hstep := countRow_eq_filter ZoneType.transit (grid.getD y [])
        (fun x => decide (x ∈ coveredX g)) ?_
      · rw [hstep, hrl, filter_mem_coveredX]
      · intro x hx
        rw [hrl] at hx
        have hc := hchar x y hx hy
        show (cellAt grid x y).type = ZoneType.transit ↔ _
        rw [hc]
        simp [hyc']
    | false =>
      have hyc' : y ∉ coveredX g := of_decide_eq_false hyc
      rw [if_neg (by simp)]
      have hstep := countRow_eq_filter ZoneType.transit (grid.getD y [])
        (fun _ => false) ?_
      · rw [hstep]
        simp
      · intro x hx
        rw [hrl] at hx
        have hc := hchar x y hx hy
        show (cellAt grid x y).type = ZoneType.transit ↔ _
        rw [hc]
        simp [hyc']
  rw [List.map_congr_left hrow]
  rw [sum_map_if (fun y => decide (y ∈ coveredX g)) (coveredX g).length]
  rw [filter_mem_coveredX]

/-- With a zero transit ratio, `generateLayout` terminates on a grid of size
at least 8 and the transit cells of the result are exactly the 2x2 hub
clusters clipped to the grid: `|coveredX g|` covered columns crossed with
`|coveredX g|` covered rows. -/
lemma recalcStats_grid (c : CityModel) : c.recalcStats.grid = c.grid := rfl

lemma generateLayout_transit_count (p : LayoutParams) (rnd : Nat → Rat)
    (c : CityModel) (g : Nat) (hg : c.gridSize = g) (h8 : 8 ≤ g)
    (hgood : Good c) (htr : p.transitRatio = 0) :
    ∃ c', c.generateLayout p rnd = some c' ∧
      countGrid ZoneType.transit c'.grid =
        (coveredX g).length * (coveredX g).length ∧
      c'.distribution.transit =
        (((coveredX g).length * (coveredX g).length : Nat) : Int) := by
  have hne : ¬ c.gridSize / 8 = 0 := by
    rw [hg]; omega
  have hgen : c.generateLayout p rnd = some
      ((ringPhase p rnd
        c.clear.generateRoadNetwork).1.addTransitHubs.recalcStats.saveState) := by
    unfold CityModel.generateLayout
    rw [if_neg hne]
  have hpre : PreHub g (ringPhase p rnd c.clear.generateRoadNetwork).1 :=
    ringPhase_preHub g p htr rnd _
      (generateRoadNetwork_preHub g _ (clear_preHub g c hg))
  obtain ⟨hgs2, hd2, hnt2⟩ := hpre
  set c2 := (ringPhase p rnd c.clear.generateRoadNetwork).1 with hc2
  have heqpairs := addTransitHubs_eq_pairs c2
  rw [hgs2] at heqpairs
  have hgridfin : c2.addTransitHubs.recalcStats.saveState.grid =
      c2.addTransitHubs.grid := by
    rw [saveState_grid, recalcStats_grid]
  have hcount : countGrid ZoneType.transit c2.addTransitHubs.grid =
      (coveredX g).length * (coveredX g).length := by
    rw [heqpairs]
    apply countGrid_of_cover g _ (hubFold_dims g _ c2 hgs2 hd2)
    intro u v hu hv
    rw [hubFold_cellType g _ c2 hgs2 hd2 u v hu hv]
    rw [← cover_pairs_iff g u v hu hv]
    have hnotr := hnt2 u v hu hv
    constructor
    · rintro (hcon | he)
      · exact absurd hcon hnotr
      · exact he
    · exact fun he => Or.inr he
  refine ⟨_, hgen, ?_, ?_⟩
  · rw [hgridfin]
    exact hcount
  · have hgood' : Good c2.addTransitHubs.recalcStats.saveState :=
      generateLayout_good p rnd c _ hgood hgen
    have hmatch := hgood'.2.1 ZoneType.transit
    have : c2.addTransitHubs.recalcStats.saveState.distribution.transit =
        (countGrid ZoneType.transit
          c2.addTransitHubs.recalcStats.saveState.grid : Int) := hmatch
    rw [this, hgridfin, hcount]

/-- Layout parameters with the industrial, commercial and transit ratios all
zero and the default residential/green ratios, as in the claimed scenario. -/
def hubParams : LayoutParams :=
  { residentialRatio := 35 / 100, commercialRatio := 0, industrialRatio := 0,
    greenRatio := 25 / 100, transitRatio := 0, roadRatio := 7 / 100 }

/-- A concrete stream of random draws. -/
def hubRnd : Nat → Rat := fun _ => 0

/-- **C9** (corrected).  On a fresh City of grid size `g ≥ 8` whose
industrial, commercial and transit ratio parameters are all zero, for every
sequence of random draws `generateLayout` terminates and the number of
transit cells (both the grid count and the distribution entry) equals
`|coveredX g|^2`, where `coveredX g` collects the in-range covered
coordinates: the hub anchors (positive multiples of `floor(g/4)` below `g`)
together with their successors that are still below `g`.  This equals the
claimed `4 x (number of anchor intersections)` only when no 2x2 cluster is
clipped at the grid edge; `C9_counterexample` shows grid size 9 yields 49
transit cells, not the claimed 4 x 16 = 64. -/
theorem C9_transit_hub_count (p : LayoutParams) (rnd : Nat → Rat)
    (arg : Nat ⊕ String) (g : Nat)
    (hg : (CityModel.create arg).gridSize = g) (h8 : 8 ≤ g)
    (hind : p.industrialRatio = 0) (hcom : p.commercialRatio = 0)
    (htr : p.transitRatio = 0) :
    ∃ c', (CityModel.create arg).generateLayout p rnd = some c' ∧
      countGrid ZoneType.transit c'.grid =
        (coveredX g).length * (coveredX g).length ∧
      c'.distribution.transit =
        (((coveredX g).length * (coveredX g).length : Nat) : Int) :=
  generateLayout_transit_count p rnd _ g hg h8 (create_good arg) htr

/-- **C9 counterexample**: grid size 9.  The hub anchors are the positive
multiples of `floor(9/4) = 2` below 9, i.e. {2, 4, 6, 8}, giving 4 x 4
intersections and a claimed transit count of 4 x 16 = 64; but the clusters
anchored at 8 are clipped by the `setZone` bounds check (column/row 9 does
not exist), so only the 7 columns/rows {2, ..., 8} are covered and the
actual transit count is 7 x 7 = 49. -/
theorem C9_counterexample :
    ∃ c', (CityModel.create (Sum.inl 9)).generateLayout hubParams hubRnd =
        some c' ∧
      countGrid ZoneType.transit c'.grid = 49 ∧
      (hubAnchors 9).length = 4 ∧
      countGrid ZoneType.transit c'.grid ≠
        4 * ((hubAnchors 9).length * (hubAnchors 9).length) := by
  obtain ⟨c', hgen, hcount, -⟩ := generateLayout_transit_count hubParams hubRnd
    (CityModel.create (Sum.inl 9)) 9 rfl (by omega) (create_good _) rfl
  have h49 : countGrid ZoneType.transit c'.grid = 49 := by
    rw [hcount]
    decide
  exact ⟨c', hgen, h49, by decide, by rw [h49]; decide⟩

/-- Witness for C9 at grid size 8: anchors {2, 4, 6}, covered columns
{2, ..., 7}, transit count 36 — here no cluster is clipped and the count
coincides with 4 x (number of intersections) = 4 x 9. -/
theorem C9_transit_hub_count_witness :
    (CityModel.create (Sum.inl 8)).gridSize = 8 ∧ 8 ≤ 8 ∧
      hubParams.industrialRatio = 0 ∧ hubParams.commercialRatio = 0 ∧
      hubParams.transitRatio = 0 ∧
      (∃ c', (CityModel.create (Sum.inl 8)).generateLayout hubParams hubRnd =
          some c' ∧
        countGrid ZoneType.transit c'.grid =
          (coveredX 8).length * (coveredX 8).length ∧
        c'.distribution.transit =
          (((coveredX 8).length * (coveredX 8).length : Nat) : Int)) ∧
      (coveredX 8).length * (coveredX 8).length =
        4 * ((hubAnchors 8).length * (hubAnchors 8).length) :=
  ⟨rfl, by decide, rfl, rfl, rfl,
    C9_transit_hub_count hubParams hubRnd (Sum.inl 8) 8 rfl (by decide) rfl
      rfl rfl,
    by decide⟩
